import Mathlib

/-!
Verification of the OddsIQ ml-service: temporal feature engineering
(form, head-to-head, standings, goal-pattern aggregators and their
composition) and the multi-market prediction serving layer.

The Python modules under `src/ml-service/app` are embedded shallowly:
dictionaries of features become association lists `List (String × ℚ)`,
`datetime` values become a lexicographically ordered record `DTime`,
Python `float` arithmetic becomes exact rational arithmetic (every value
the development evaluates is exactly representable), and `list.sort` with
a key becomes `List.insertionSort` with the corresponding relation.
-/

/-- A calendar date-time, ordered lexicographically by (year, month, day),
modelling the `match_date` values compared with `<` in the Python code. -/
structure DTime where
  year : Int
  month : Nat
  day : Nat
deriving DecidableEq, Repr

/-- Strict lexicographic comparison of date-times, the embedding of
Python's `datetime` comparison `a < b`. -/
def DTime.ltb (a b : DTime) : Bool :=
  a.year < b.year ||
    (a.year == b.year &&
      (a.month < b.month || (a.month == b.month && a.day < b.day)))

/-- Non-strict date-time comparison, used for descending sorts. -/
def DTime.leb (a b : DTime) : Bool :=
  a.ltb b || a == b

/-- A fixture record as returned by the database layer
(`connection.py`): identifiers, season, date, nullable final scores and a
status string. -/
structure Fixture where
  id : Nat
  season : Int
  matchDate : DTime
  homeTeamId : Nat
  awayTeamId : Nat
  homeScore : Option Nat
  awayScore : Option Nat
  status : String
deriving DecidableEq, Repr

/-- Home score with `None` read as 0.  The aggregators only reach the
score of a selected fixture after filtering on `home_score is not None`;
for such fixtures this matches the Python value exactly. -/
def Fixture.hs (f : Fixture) : Nat := f.homeScore.getD 0

/-- Away score with `None` read as 0 (see `Fixture.hs`). -/
def Fixture.as (f : Fixture) : Nat := f.awayScore.getD 0

/-- A feature dictionary: insertion-ordered mapping from feature name to
rational value.  In the Python code every dictionary union performed by
the feature pipeline has disjoint key sets, so concatenation with
first-match lookup models `dict.update` faithfully. -/
abbrev Feat := List (String × ℚ)

/-- First-match lookup, the embedding of Python `d[k]` / `d.get(k)`. -/
def featLookup (d : Feat) (k : String) : Option ℚ :=
  List.lookup k d

/-- The embedding of `features.get(col, 0.0) or 0.0` used when building a
model input vector: a missing name contributes `0`. -/
def featGet (d : Feat) (k : String) : ℚ :=
  (featLookup d k).getD 0

/-- Descending-date ordering relation used for `sort(key=match_date,
reverse=True)`. -/
def dateDescRel (a b : Fixture) : Prop :=
  b.matchDate.leb a.matchDate = true

instance : DecidableRel dateDescRel := fun a b => by
  unfold dateDescRel; infer_instance

/-- Sort a fixture list by date descending, the embedding of
`fixtures.sort(key=lambda x: x['match_date'], reverse=True)`. -/
def sortByDateDesc (l : List Fixture) : List Fixture :=
  List.insertionSort dateDescRel l

/- ----------------------------------------------------------------
form_metrics.py
---------------------------------------------------------------- -/

/-- The eligibility filter of `calculate_team_form_last_n`
(form_metrics.py lines 29-35): the team took part, the date is strictly
before the cutoff, status is "FT" and the home score is non-null. -/
def formFilter (teamId : Nat) (currentDate : DTime) (allFixtures : List Fixture) :
    List Fixture :=
  allFixtures.filter fun f =>
    (f.homeTeamId == teamId || f.awayTeamId == teamId) &&
      f.matchDate.ltb currentDate &&
      f.status == "FT" &&
      f.homeScore.isSome

/-- The selected window of `calculate_team_form_last_n` (lines 38-39):
eligible fixtures sorted by date descending, truncated to `nGames`. -/
def formWindow (teamId : Nat) (currentDate : DTime) (allFixtures : List Fixture)
    (nGames : Nat) : List Fixture :=
  (sortByDateDesc (formFilter teamId currentDate allFixtures)).take nGames

/-- Feature-name builder for the f-strings `form_last_{n_games}_...`. -/
def formKey (nGames : Nat) (s : String) : String :=
  "form_last_" ++ toString nGames ++ "_" ++ s

/-- Score of `teamId` in a fixture (`home_score if is_home else away_score`). -/
def teamScore (teamId : Nat) (f : Fixture) : Nat :=
  if f.homeTeamId == teamId then f.hs else f.as

/-- Score of the opponent of `teamId` in a fixture. -/
def oppScore (teamId : Nat) (f : Fixture) : Nat :=
  if f.homeTeamId == teamId then f.as else f.hs

/-- The embedding of `calculate_team_form_last_n` (form_metrics.py):
points, win/draw/loss, goal and clean-sheet counts over the last
`nGames` eligible games, with the all-zero short dictionary (no average
keys) when no game is eligible. -/
def calculate_team_form_last_n (teamId : Nat) (currentDate : DTime)
    (allFixtures : List Fixture) (nGames : Nat) : Feat :=
  let recent := formWindow teamId currentDate allFixtures nGames
  if recent.length = 0 then
    [(formKey nGames "points", 0), (formKey nGames "wins", 0),
     (formKey nGames "draws", 0), (formKey nGames "losses", 0),
     (formKey nGames "goals_scored", 0), (formKey nGames "goals_conceded", 0),
     (formKey nGames "goal_diff", 0), (formKey nGames "clean_sheets", 0),
     (formKey nGames "failed_to_score", 0), (formKey nGames "games_played", 0)]
  else
    let wins := (recent.filter fun f => oppScore teamId f < teamScore teamId f).length
    let draws := (recent.filter fun f => teamScore teamId f = oppScore teamId f).length
    let losses := (recent.filter fun f => teamScore teamId f < oppScore teamId f).length
    let points := 3 * wins + draws
    let goalsScored := (recent.map (teamScore teamId)).sum
    let goalsConceded := (recent.map (oppScore teamId)).sum
    let cleanSheets := (recent.filter fun f => oppScore teamId f = 0).length
    let failedToScore := (recent.filter fun f => teamScore teamId f = 0).length
    let gamesPlayed := recent.length
    [(formKey nGames "points", (points : ℚ)),
     (formKey nGames "wins", (wins : ℚ)),
     (formKey nGames "draws", (draws : ℚ)),
     (formKey nGames "losses", (losses : ℚ)),
     (formKey nGames "goals_scored", (goalsScored : ℚ)),
     (formKey nGames "goals_conceded", (goalsConceded : ℚ)),
     (formKey nGames "goal_diff", (goalsScored : ℚ) - (goalsConceded : ℚ)),
     (formKey nGames "clean_sheets", (cleanSheets : ℚ)),
     (formKey nGames "failed_to_score", (failedToScore : ℚ)),
     (formKey nGames "games_played", (gamesPlayed : ℚ)),
     (formKey nGames "avg_points", (points : ℚ) / gamesPlayed),
     (formKey nGames "avg_goals_scored", (goalsScored : ℚ) / gamesPlayed),
     (formKey nGames "avg_goals_conceded", (goalsConceded : ℚ) / gamesPlayed)]

/-- The eligibility filter of `calculate_home_away_form`
(form_metrics.py lines 130-145): venue-restricted variant. -/
def homeAwayFormFilter (teamId : Nat) (currentDate : DTime) (isHome : Bool)
    (allFixtures : List Fixture) : List Fixture :=
  if isHome then
    allFixtures.filter fun f =>
      f.homeTeamId == teamId && f.matchDate.ltb currentDate &&
        f.status == "FT" && f.homeScore.isSome
  else
    allFixtures.filter fun f =>
      f.awayTeamId == teamId && f.matchDate.ltb currentDate &&
        f.status == "FT" && f.awayScore.isSome

/-- The selected window of `calculate_home_away_form` (lines 147-148). -/
def homeAwayFormWindow (teamId : Nat) (currentDate : DTime) (isHome : Bool)
    (allFixtures : List Fixture) (nGames : Nat) : List Fixture :=
  (sortByDateDesc (homeAwayFormFilter teamId currentDate isHome allFixtures)).take nGames

/-- Feature-name builder for `{location}_form_last_{n_games}_...`. -/
def locFormKey (isHome : Bool) (nGames : Nat) (s : String) : String :=
  (if isHome then "home" else "away") ++ "_" ++ formKey nGames s

/-- Venue score of the team in a venue-restricted fixture
(`home_score if is_home else away_score`, form_metrics.py line 166). -/
def venueScore (isHome : Bool) (f : Fixture) : Nat :=
  if isHome then f.hs else f.as

/-- Venue score of the opponent in a venue-restricted fixture. -/
def venueOppScore (isHome : Bool) (f : Fixture) : Nat :=
  if isHome then f.as else f.hs

/-- The embedding of `calculate_home_away_form` (form_metrics.py):
home-only or away-only form over the last `nGames` such games, with the
short all-zero dictionary (no average keys) when no game is eligible. -/
def calculate_home_away_form (teamId : Nat) (currentDate : DTime)
    (allFixtures : List Fixture) (isHome : Bool) (nGames : Nat) : Feat :=
  let recent := homeAwayFormWindow teamId currentDate isHome allFixtures nGames
  if recent.length = 0 then
    [(locFormKey isHome nGames "points", 0),
     (locFormKey isHome nGames "wins", 0),
     (locFormKey isHome nGames "goals_scored", 0),
     (locFormKey isHome nGames "goals_conceded", 0),
     (locFormKey isHome nGames "games_played", 0)]
  else
    let wins := (recent.filter fun f =>
      venueOppScore isHome f < venueScore isHome f).length
    let draws := (recent.filter fun f =>
      venueScore isHome f = venueOppScore isHome f).length
    let points := 3 * wins + draws
    let goalsScored := (recent.map (venueScore isHome)).sum
    let goalsConceded := (recent.map (venueOppScore isHome)).sum
    let gamesPlayed := recent.length
    [(locFormKey isHome nGames "points", (points : ℚ)),
     (locFormKey isHome nGames "wins", (wins : ℚ)),
     (locFormKey isHome nGames "goals_scored", (goalsScored : ℚ)),
     (locFormKey isHome nGames "goals_conceded", (goalsConceded : ℚ)),
     (locFormKey isHome nGames "games_played", (gamesPlayed : ℚ)),
     (locFormKey isHome nGames "avg_points",
       if 0 < gamesPlayed then (points : ℚ) / gamesPlayed else 0),
     (locFormKey isHome nGames "avg_goals_scored",
       if 0 < gamesPlayed then (goalsScored : ℚ) / gamesPlayed else 0)]

/-- The embedding of `get_form_features` (form_metrics.py): both teams'
overall last-5 form with `home_`/`away_` name prefixes, venue-specific
last-3 form, and the three form differentials. -/
def get_form_features (homeTeamId awayTeamId : Nat) (matchDate : DTime)
    (allFixtures : List Fixture) : Feat :=
  let homeForm := (calculate_team_form_last_n homeTeamId matchDate allFixtures 5).map
    fun p => ("home_" ++ p.1, p.2)
  let awayForm := (calculate_team_form_last_n awayTeamId matchDate allFixtures 5).map
    fun p => ("away_" ++ p.1, p.2)
  let homeHomeForm := calculate_home_away_form homeTeamId matchDate allFixtures true 3
  let awayAwayForm := calculate_home_away_form awayTeamId matchDate allFixtures false 3
  let features := homeForm ++ awayForm ++ homeHomeForm ++ awayAwayForm
  features ++
    [("form_points_diff",
       featGet features "home_form_last_5_points" -
         featGet features "away_form_last_5_points"),
     ("form_goals_scored_diff",
       featGet features "home_form_last_5_goals_scored" -
         featGet features "away_form_last_5_goals_scored"),
     ("form_goal_diff_diff",
       featGet features "home_form_last_5_goal_diff" -
         featGet features "away_form_last_5_goal_diff")]

/- ----------------------------------------------------------------
h2h_stats.py
---------------------------------------------------------------- -/

/-- The eligibility filter of `calculate_h2h_stats` (h2h_stats.py lines
31-38): prior meetings of the two teams in either venue order, strictly
before the cutoff, with status "Match Finished" (note: not "FT") and a
non-null home score. -/
def h2hFilter (homeTeamId awayTeamId : Nat) (currentDate : DTime)
    (allFixtures : List Fixture) : List Fixture :=
  allFixtures.filter fun f =>
    ((f.homeTeamId == homeTeamId && f.awayTeamId == awayTeamId) ||
      (f.homeTeamId == awayTeamId && f.awayTeamId == homeTeamId)) &&
      f.matchDate.ltb currentDate &&
      f.status == "Match Finished" &&
      f.homeScore.isSome

/-- The selected window of `calculate_h2h_stats` (lines 41-42). -/
def h2hWindow (homeTeamId awayTeamId : Nat) (currentDate : DTime)
    (allFixtures : List Fixture) (nGames : Nat) : List Fixture :=
  (sortByDateDesc (h2hFilter homeTeamId awayTeamId currentDate allFixtures)).take nGames

/-- Goals of the current home team in a historical meeting
(h2h_stats.py lines 70-99: its home goals when it hosted, else its away
goals). -/
def h2hHomeGoals (homeTeamId : Nat) (f : Fixture) : Nat :=
  if f.homeTeamId == homeTeamId then f.hs else f.as

/-- Goals of the current away team in a historical meeting. -/
def h2hAwayGoals (homeTeamId : Nat) (f : Fixture) : Nat :=
  if f.homeTeamId == homeTeamId then f.as else f.hs

/-- The embedding of `calculate_h2h_stats` (h2h_stats.py): outcome and
goal statistics over the last `nGames` prior meetings, attributed to the
current home team, plus the "home as home" sub-counts; all-zero short
dictionary when no meeting passes the filter. -/
def calculate_h2h_stats (homeTeamId awayTeamId : Nat) (currentDate : DTime)
    (allFixtures : List Fixture) (nGames : Nat) : Feat :=
  let recent := h2hWindow homeTeamId awayTeamId currentDate allFixtures nGames
  if recent.length = 0 then
    [("h2h_games_played", 0), ("h2h_home_wins", 0), ("h2h_away_wins", 0),
     ("h2h_draws", 0), ("h2h_home_goals_scored", 0),
     ("h2h_away_goals_scored", 0), ("h2h_home_win_pct", 0),
     ("h2h_avg_total_goals", 0), ("h2h_home_as_home_wins", 0),
     ("h2h_home_as_home_games", 0)]
  else
    let homeWins := (recent.filter fun f =>
      h2hAwayGoals homeTeamId f < h2hHomeGoals homeTeamId f).length
    let awayWins := (recent.filter fun f =>
      h2hHomeGoals homeTeamId f < h2hAwayGoals homeTeamId f).length
    let draws := (recent.filter fun f =>
      h2hHomeGoals homeTeamId f = h2hAwayGoals homeTeamId f).length
    let homeGoalsTotal := (recent.map (h2hHomeGoals homeTeamId)).sum
    let awayGoalsTotal := (recent.map (h2hAwayGoals homeTeamId)).sum
    let homeAsHomeGames := (recent.filter fun f => f.homeTeamId == homeTeamId).length
    let homeAsHomeWins := (recent.filter fun f =>
      f.homeTeamId == homeTeamId && f.as < f.hs).length
    let gamesPlayed := recent.length
    let totalGoals := homeGoalsTotal + awayGoalsTotal
    [("h2h_games_played", (gamesPlayed : ℚ)),
     ("h2h_home_wins", (homeWins : ℚ)),
     ("h2h_away_wins", (awayWins : ℚ)),
     ("h2h_draws", (draws : ℚ)),
     ("h2h_home_goals_scored", (homeGoalsTotal : ℚ)),
     ("h2h_away_goals_scored", (awayGoalsTotal : ℚ)),
     ("h2h_goal_diff", (homeGoalsTotal : ℚ) - (awayGoalsTotal : ℚ)),
     ("h2h_home_win_pct", (homeWins : ℚ) / gamesPlayed),
     ("h2h_away_win_pct", (awayWins : ℚ) / gamesPlayed),
     ("h2h_draw_pct", (draws : ℚ) / gamesPlayed),
     ("h2h_avg_total_goals", (totalGoals : ℚ) / gamesPlayed),
     ("h2h_avg_home_goals", (homeGoalsTotal : ℚ) / gamesPlayed),
     ("h2h_avg_away_goals", (awayGoalsTotal : ℚ) / gamesPlayed),
     ("h2h_home_as_home_wins", (homeAsHomeWins : ℚ)),
     ("h2h_home_as_home_games", (homeAsHomeGames : ℚ)),
     ("h2h_home_as_home_win_pct",
       if 0 < homeAsHomeGames then (homeAsHomeWins : ℚ) / homeAsHomeGames else 0)]

/-- The embedding of `get_h2h_features` (h2h_stats.py line 142). -/
def get_h2h_features (homeTeamId awayTeamId : Nat) (matchDate : DTime)
    (allFixtures : List Fixture) : Feat :=
  calculate_h2h_stats homeTeamId awayTeamId matchDate allFixtures 5

/- ----------------------------------------------------------------
league_position.py
---------------------------------------------------------------- -/

/-- One accumulating row of the league table (league_position.py lines
37-46), before a position is assigned. -/
structure TableRow where
  played : Nat
  wins : Nat
  draws : Nat
  losses : Nat
  goals_for : Nat
  goals_against : Nat
  goal_diff : Int
  points : Nat
deriving DecidableEq, Repr

/-- The zero row created by the `defaultdict` on first access. -/
def TableRow.init : TableRow := ⟨0, 0, 0, 0, 0, 0, 0, 0⟩

/-- The eligibility filter of `calculate_league_table` (league_position.py
lines 28-34): same season, strictly before the cutoff, status "FT",
non-null home score. -/
def standingsFilter (season : Int) (upToDate : DTime) (allFixtures : List Fixture) :
    List Fixture :=
  allFixtures.filter fun f =>
    f.season == season && f.matchDate.ltb upToDate &&
      f.status == "FT" && f.homeScore.isSome

/-- Update-or-create for the insertion-ordered accumulator, modelling
mutation of a `defaultdict` entry: an existing key is updated in place,
a new key is appended with the zero row first passed through `g`. -/
def upsertRow (rows : List (Nat × TableRow)) (tid : Nat) (g : TableRow → TableRow) :
    List (Nat × TableRow) :=
  if rows.any (fun p => p.1 == tid) then
    rows.map fun p => if p.1 == tid then (p.1, g p.2) else p
  else
    rows ++ [(tid, g TableRow.init)]

/-- The home team's per-fixture accumulation (league_position.py lines
56-59 and 68-80 combined for the home side). -/
def homeSideUpdate (f : Fixture) (r : TableRow) : TableRow :=
  { r with
    played := r.played + 1
    goals_for := r.goals_for + f.hs
    goals_against := r.goals_against + f.as
    goal_diff := r.goal_diff + ((f.hs : Int) - (f.as : Int))
    wins := if f.as < f.hs then r.wins + 1 else r.wins
    losses := if f.hs < f.as then r.losses + 1 else r.losses
    draws := if f.hs = f.as then r.draws + 1 else r.draws
    points := if f.as < f.hs then r.points + 3
      else if f.hs = f.as then r.points + 1 else r.points }

/-- The away team's per-fixture accumulation (lines 62-65 and 68-80 for
the away side). -/
def awaySideUpdate (f : Fixture) (r : TableRow) : TableRow :=
  { r with
    played := r.played + 1
    goals_for := r.goals_for + f.as
    goals_against := r.goals_against + f.hs
    goal_diff := r.goal_diff + ((f.as : Int) - (f.hs : Int))
    wins := if f.hs < f.as then r.wins + 1 else r.wins
    losses := if f.as < f.hs then r.losses + 1 else r.losses
    draws := if f.hs = f.as then r.draws + 1 else r.draws
    points := if f.hs < f.as then r.points + 3
      else if f.hs = f.as then r.points + 1 else r.points }

/-- Replay one fixture into the accumulating table (league_position.py
lines 49-80): both sides' rows are created on demand and updated. -/
def applyFixture (rows : List (Nat × TableRow)) (f : Fixture) :
    List (Nat × TableRow) :=
  upsertRow (upsertRow rows f.homeTeamId (homeSideUpdate f)) f.awayTeamId
    (awaySideUpdate f)

/-- The sort key of the standings sort (league_position.py line 85):
`(points, goal_diff, goals_for)`. -/
def rowKey (r : TableRow) : Nat × Int × Nat :=
  (r.points, r.goal_diff, r.goals_for)

/-- The descending-key relation of `sorted(..., reverse=True)` on table
entries: the left key is lexicographically greater than or equal. -/
def standingsRel (a b : Nat × TableRow) : Prop :=
  b.2.points < a.2.points ∨
    (a.2.points = b.2.points ∧
      (b.2.goal_diff < a.2.goal_diff ∨
        (a.2.goal_diff = b.2.goal_diff ∧ b.2.goals_for ≤ a.2.goals_for)))

instance : DecidableRel standingsRel := fun a b => by
  unfold standingsRel; infer_instance

instance : IsTotal (Nat × TableRow) standingsRel where
  total a b := by
    unfold standingsRel
    rcases Nat.lt_trichotomy a.2.points b.2.points with h | h | h
    · exact Or.inr (Or.inl h)
    · rcases Int.lt_trichotomy a.2.goal_diff b.2.goal_diff with h' | h' | h'
      · exact Or.inr (Or.inr ⟨h.symm, Or.inl h'⟩)
      · rcases Nat.le_total b.2.goals_for a.2.goals_for with h'' | h''
        · exact Or.inl (Or.inr ⟨h, Or.inr ⟨h', h''⟩⟩)
        · exact Or.inr (Or.inr ⟨h.symm, Or.inr ⟨h'.symm, h''⟩⟩)
      · exact Or.inl (Or.inr ⟨h, Or.inl h'⟩)
    · exact Or.inl (Or.inl h)

instance : IsTrans (Nat × TableRow) standingsRel where
  trans a b c hab hbc := by
    unfold standingsRel at *
    rcases hab with h1 | ⟨e1, h1⟩
    · rcases hbc with h2 | ⟨e2, _⟩
      · exact Or.inl (h2.trans h1)
      · exact Or.inl (e2 ▸ h1)
    · rcases hbc with h2 | ⟨e2, h2⟩
      · exact Or.inl (e1 ▸ h2)
      · refine Or.inr ⟨e1.trans e2, ?_⟩
        rcases h1 with g1 | ⟨d1, g1⟩
        · rcases h2 with g2 | ⟨d2, _⟩
          · exact Or.inl (g2.trans g1)
          · exact Or.inl (d2 ▸ g1)
        · rcases h2 with g2 | ⟨d2, g2⟩
          · exact Or.inl (d1 ▸ g2)
          · exact Or.inr ⟨d1.trans d2, g2.trans g1⟩

/-- Index of the entry of team `tid` in a table-entry list. -/
def teamIdx (l : List (Nat × TableRow)) (tid : Nat) : Nat :=
  l.findIdx fun p => p.1 == tid

/-- The embedding of `calculate_league_table` (league_position.py):
replays the eligible season fixtures, sorts the accumulated rows by
`(points, goal_diff, goals_for)` descending, and assigns positions
1, 2, ... in sorted order; the mapping is returned in dictionary
(insertion) order as `(team id, row, position)` triples. -/
def calculate_league_table (season : Int) (upToDate : DTime)
    (allFixtures : List Fixture) : List (Nat × TableRow × Nat) :=
  let rows := (standingsFilter season upToDate allFixtures).foldl applyFixture []
  let sortedRows := List.insertionSort standingsRel rows
  rows.map fun p => (p.1, p.2, teamIdx sortedRows p.1 + 1)

/-- The neutral default row used by `get_league_position_features`
(league_position.py lines 122-140) for a team absent from the table:
mid-table position 10, zero everything else. -/
def defaultPosRow : TableRow × Nat := (TableRow.init, 10)

/-- Table lookup returning `(row, position)` for a team, with the
neutral default when absent (`table.get(team_id, {...})`). -/
def tableGet (table : List (Nat × TableRow × Nat)) (tid : Nat) : TableRow × Nat :=
  match table.find? (fun p => p.1 == tid) with
  | some p => p.2
  | none => defaultPosRow

/-- The embedding of `get_league_position_features` (league_position.py):
position/points/goal context for both teams and their differentials,
with the games-played divisor defaulted to 1 when zero. -/
def get_league_position_features (homeTeamId awayTeamId : Nat) (season : Int)
    (matchDate : DTime) (allFixtures : List Fixture) : Feat :=
  let table := calculate_league_table season matchDate allFixtures
  let homeStats := tableGet table homeTeamId
  let awayStats := tableGet table awayTeamId
  let homePlayed : Nat := if 0 < homeStats.1.played then homeStats.1.played else 1
  let awayPlayed : Nat := if 0 < awayStats.1.played then awayStats.1.played else 1
  [("home_position", (homeStats.2 : ℚ)),
   ("away_position", (awayStats.2 : ℚ)),
   ("position_diff", (homeStats.2 : ℚ) - (awayStats.2 : ℚ)),
   ("home_points", (homeStats.1.points : ℚ)),
   ("away_points", (awayStats.1.points : ℚ)),
   ("points_diff", (homeStats.1.points : ℚ) - (awayStats.1.points : ℚ)),
   ("home_ppg", (homeStats.1.points : ℚ) / homePlayed),
   ("away_ppg", (awayStats.1.points : ℚ) / awayPlayed),
   ("ppg_diff",
     (homeStats.1.points : ℚ) / homePlayed - (awayStats.1.points : ℚ) / awayPlayed),
   ("home_season_goals_for", (homeStats.1.goals_for : ℚ)),
   ("away_season_goals_for", (awayStats.1.goals_for : ℚ)),
   ("home_season_goals_against", (homeStats.1.goals_against : ℚ)),
   ("away_season_goals_against", (awayStats.1.goals_against : ℚ)),
   ("home_avg_goals_scored", (homeStats.1.goals_for : ℚ) / homePlayed),
   ("away_avg_goals_scored", (awayStats.1.goals_for : ℚ) / awayPlayed),
   ("home_avg_goals_conceded", (homeStats.1.goals_against : ℚ) / homePlayed),
   ("away_avg_goals_conceded", (awayStats.1.goals_against : ℚ) / awayPlayed),
   ("home_goal_diff", (homeStats.1.goal_diff : ℚ)),
   ("away_goal_diff", (awayStats.1.goal_diff : ℚ)),
   ("goal_diff_diff", (homeStats.1.goal_diff : ℚ) - (awayStats.1.goal_diff : ℚ)),
   ("home_games_played", (homeStats.1.played : ℚ)),
   ("away_games_played", (awayStats.1.played : ℚ)),
   ("home_win_pct", (homeStats.1.wins : ℚ) / homePlayed),
   ("away_win_pct", (awayStats.1.wins : ℚ) / awayPlayed)]

/- ----------------------------------------------------------------
goal_features.py
---------------------------------------------------------------- -/

/-- The eligibility filter of `calculate_goal_metrics` (goal_features.py
lines 29-35): identical shape to the form filter. -/
def goalFilter (teamId : Nat) (currentDate : DTime) (allFixtures : List Fixture) :
    List Fixture :=
  allFixtures.filter fun f =>
    (f.homeTeamId == teamId || f.awayTeamId == teamId) &&
      f.matchDate.ltb currentDate &&
      f.status == "FT" &&
      f.homeScore.isSome

/-- The selected window of `calculate_goal_metrics` (lines 38-39). -/
def goalWindow (teamId : Nat) (currentDate : DTime) (allFixtures : List Fixture)
    (nGames : Nat) : List Fixture :=
  (sortByDateDesc (goalFilter teamId currentDate allFixtures)).take nGames

/-- The embedding of `calculate_goal_metrics` (goal_features.py):
scoring/conceding averages and over/BTTS/clean-sheet fractions over the
last `nGames` games; note the zero branch carries two extra first-half
keys that the non-empty branch never produces, exactly as in the source. -/
def calculate_goal_metrics (teamId : Nat) (currentDate : DTime)
    (allFixtures : List Fixture) (nGames : Nat) : Feat :=
  let recent := goalWindow teamId currentDate allFixtures nGames
  if recent.length = 0 then
    [("goals_scored_avg", 0), ("goals_conceded_avg", 0),
     ("total_goals_avg", 0), ("over_2_5_pct", 0), ("over_1_5_pct", 0),
     ("over_3_5_pct", 0), ("btts_pct", 0), ("clean_sheet_pct", 0),
     ("failed_to_score_pct", 0), ("scored_first_half_pct", 0),
     ("conceded_first_half_pct", 0), ("games_analyzed", 0)]
  else
    let totalScored := (recent.map (teamScore teamId)).sum
    let totalConceded := (recent.map (oppScore teamId)).sum
    let over25 := (recent.filter fun f => 2 < f.hs + f.as).length
    let over15 := (recent.filter fun f => 1 < f.hs + f.as).length
    let over35 := (recent.filter fun f => 3 < f.hs + f.as).length
    let btts := (recent.filter fun f =>
      0 < teamScore teamId f && 0 < oppScore teamId f).length
    let cleanSheets := (recent.filter fun f => oppScore teamId f = 0).length
    let failedToScore := (recent.filter fun f => teamScore teamId f = 0).length
    let games := recent.length
    [("goals_scored_avg", (totalScored : ℚ) / games),
     ("goals_conceded_avg", (totalConceded : ℚ) / games),
     ("total_goals_avg", ((totalScored : ℚ) + totalConceded) / games),
     ("over_2_5_pct", (over25 : ℚ) / games),
     ("over_1_5_pct", (over15 : ℚ) / games),
     ("over_3_5_pct", (over35 : ℚ) / games),
     ("btts_pct", (btts : ℚ) / games),
     ("clean_sheet_pct", (cleanSheets : ℚ) / games),
     ("failed_to_score_pct", (failedToScore : ℚ) / games),
     ("games_analyzed", (games : ℚ))]

/-- The selected window of `calculate_home_away_goal_metrics`
(goal_features.py lines 130-148), sharing the venue-restricted filter of
the form module. -/
def homeAwayGoalWindow (teamId : Nat) (currentDate : DTime) (isHome : Bool)
    (allFixtures : List Fixture) (nGames : Nat) : List Fixture :=
  (sortByDateDesc (homeAwayFormFilter teamId currentDate isHome allFixtures)).take nGames

/-- The embedding of `calculate_home_away_goal_metrics`
(goal_features.py): the reduced venue-specific goal-metric set. -/
def calculate_home_away_goal_metrics (teamId : Nat) (currentDate : DTime)
    (allFixtures : List Fixture) (isHome : Bool) (nGames : Nat) : Feat :=
  let recent := homeAwayGoalWindow teamId currentDate isHome allFixtures nGames
  let location := if isHome then "home" else "away"
  if recent.length = 0 then
    [(location ++ "_goals_scored_avg", 0),
     (location ++ "_goals_conceded_avg", 0),
     (location ++ "_total_goals_avg", 0),
     (location ++ "_over_2_5_pct", 0),
     (location ++ "_btts_pct", 0),
     (location ++ "_clean_sheet_pct", 0),
     (location ++ "_failed_to_score_pct", 0)]
  else
    let totalScored := (recent.map (venueScore isHome)).sum
    let totalConceded := (recent.map (venueOppScore isHome)).sum
    let over25 := (recent.filter fun f =>
      2 < venueScore isHome f + venueOppScore isHome f).length
    let btts := (recent.filter fun f =>
      0 < venueScore isHome f && 0 < venueOppScore isHome f).length
    let cleanSheets := (recent.filter fun f => venueOppScore isHome f = 0).length
    let failedToScore := (recent.filter fun f => venueScore isHome f = 0).length
    let games := recent.length
    [(location ++ "_goals_scored_avg", (totalScored : ℚ) / games),
     (location ++ "_goals_conceded_avg", (totalConceded : ℚ) / games),
     (location ++ "_total_goals_avg", ((totalScored : ℚ) + totalConceded) / games),
     (location ++ "_over_2_5_pct", (over25 : ℚ) / games),
     (location ++ "_btts_pct", (btts : ℚ) / games),
     (location ++ "_clean_sheet_pct", (cleanSheets : ℚ) / games),
     (location ++ "_failed_to_score_pct", (failedToScore : ℚ) / games)]

/-- The eligibility filter of `calculate_h2h_goal_metrics`
(goal_features.py lines 221-228): prior meetings with status "FT"
(unlike the h2h outcome aggregator's "Match Finished"). -/
def h2hGoalFilter (homeTeamId awayTeamId : Nat) (currentDate : DTime)
    (allFixtures : List Fixture) : List Fixture :=
  allFixtures.filter fun f =>
    ((f.homeTeamId == homeTeamId && f.awayTeamId == awayTeamId) ||
      (f.homeTeamId == awayTeamId && f.awayTeamId == homeTeamId)) &&
      f.matchDate.ltb currentDate &&
      f.status == "FT" &&
      f.homeScore.isSome

/-- The selected window of `calculate_h2h_goal_metrics` (lines 230-231). -/
def h2hGoalWindow (homeTeamId awayTeamId : Nat) (currentDate : DTime)
    (allFixtures : List Fixture) (nGames : Nat) : List Fixture :=
  (sortByDateDesc (h2hGoalFilter homeTeamId awayTeamId currentDate allFixtures)).take
    nGames

/-- The embedding of `calculate_h2h_goal_metrics` (goal_features.py):
total-goal average, over-2.5 and BTTS fractions and per-side goal
averages over prior meetings. -/
def calculate_h2h_goal_metrics (homeTeamId awayTeamId : Nat) (currentDate : DTime)
    (allFixtures : List Fixture) (nGames : Nat) : Feat :=
  let recent := h2hGoalWindow homeTeamId awayTeamId currentDate allFixtures nGames
  if recent.length = 0 then
    [("h2h_total_goals_avg", 0), ("h2h_over_2_5_pct", 0), ("h2h_btts_pct", 0),
     ("h2h_home_team_goals_avg", 0), ("h2h_away_team_goals_avg", 0)]
  else
    let totalGoals : Nat := (recent.map fun f => f.hs + f.as).sum
    let homeTeamGoals := (recent.map (h2hHomeGoals homeTeamId)).sum
    let awayTeamGoals := (recent.map (h2hAwayGoals homeTeamId)).sum
    let over25 := (recent.filter fun f => 2 < f.hs + f.as).length
    let btts := (recent.filter fun f => 0 < f.hs && 0 < f.as).length
    let games := recent.length
    [("h2h_total_goals_avg", (totalGoals : ℚ) / games),
     ("h2h_over_2_5_pct", (over25 : ℚ) / games),
     ("h2h_btts_pct", (btts : ℚ) / games),
     ("h2h_home_team_goals_avg", (homeTeamGoals : ℚ) / games),
     ("h2h_away_team_goals_avg", (awayTeamGoals : ℚ) / games)]

/-- The embedding of `get_goal_features` (goal_features.py): both teams'
overall goal metrics with `home_`/`away_` name prefixes, venue-specific
metrics (gaining a second `home_`/`away_` prefix), h2h goal metrics, and
the derived combined/expected/potential features. -/
def get_goal_features (homeTeamId awayTeamId : Nat) (matchDate : DTime)
    (allFixtures : List Fixture) : Feat :=
  let homeGoals := (calculate_goal_metrics homeTeamId matchDate allFixtures 10).map
    fun p => ("home_" ++ p.1, p.2)
  let awayGoals := (calculate_goal_metrics awayTeamId matchDate allFixtures 10).map
    fun p => ("away_" ++ p.1, p.2)
  let homeAtHome :=
    (calculate_home_away_goal_metrics homeTeamId matchDate allFixtures true 5).map
      fun p => ("home_" ++ p.1, p.2)
  let awayAtAway :=
    (calculate_home_away_goal_metrics awayTeamId matchDate allFixtures false 5).map
      fun p => ("away_" ++ p.1, p.2)
  let h2hGoals := calculate_h2h_goal_metrics homeTeamId awayTeamId matchDate
    allFixtures 5
  let features := homeGoals ++ awayGoals ++ homeAtHome ++ awayAtAway ++ h2hGoals
  features ++
    [("combined_goals_avg",
       featGet features "home_goals_scored_avg" +
         featGet features "away_goals_scored_avg"),
     ("combined_conceded_avg",
       featGet features "home_goals_conceded_avg" +
         featGet features "away_goals_conceded_avg"),
     ("combined_total_goals_avg",
       featGet features "home_total_goals_avg" +
         featGet features "away_total_goals_avg"),
     ("expected_total_goals",
       (featGet features "home_goals_scored_avg" +
         featGet features "away_goals_conceded_avg" +
         featGet features "away_goals_scored_avg" +
         featGet features "home_goals_conceded_avg") / 2),
     ("both_over_2_5_pct",
       (featGet features "home_over_2_5_pct" +
         featGet features "away_over_2_5_pct") / 2),
     ("both_btts_pct",
       (featGet features "home_btts_pct" + featGet features "away_btts_pct") / 2),
     ("btts_potential",
       ((1 - featGet features "home_clean_sheet_pct") *
           (1 - featGet features "away_failed_to_score_pct") +
         (1 - featGet features "away_clean_sheet_pct") *
           (1 - featGet features "home_failed_to_score_pct")) / 2)]

/- ----------------------------------------------------------------
feature_builder.py
---------------------------------------------------------------- -/

/-- A value of the heterogeneous feature dictionary produced by
`extract_features_for_fixture`: numeric features and labels, the string
label `outcome`, and the raw `match_date`. -/
inductive FVal where
  | num (q : ℚ)
  | str (s : String)
  | dat (d : DTime)
deriving DecidableEq, Repr

/-- The composer's heterogeneous dictionary. -/
abbrev FDict := List (String × FVal)

/-- First-match lookup in the composer dictionary. -/
def fdLookup (d : FDict) (k : String) : Option FVal :=
  List.lookup k d

/-- The embedding of `float(features.get(col, 0.0) or 0.0)` applied to
the composer dictionary when assembling a model input vector: a missing
name contributes `0`.  A non-numeric value never occurs at a model
feature column (Python would raise there). -/
def fdGet (d : FDict) (k : String) : ℚ :=
  match fdLookup d k with
  | some (.num q) => q
  | _ => 0

/-- The embedding of `extract_features_for_fixture` (feature_builder.py):
identifier metadata, the four aggregator groups merged in order, and,
only when both final scores are present, the per-market labels and raw
scores. -/
def extract_features_for_fixture (fixture : Fixture) (allFixtures : List Fixture) :
    FDict :=
  let meta : FDict :=
    [("fixture_id", .num (fixture.id : ℚ)),
     ("season", .num (fixture.season : ℚ)),
     ("match_date", .dat fixture.matchDate),
     ("home_team_id", .num (fixture.homeTeamId : ℚ)),
     ("away_team_id", .num (fixture.awayTeamId : ℚ))]
  let groups : Feat :=
    get_form_features fixture.homeTeamId fixture.awayTeamId fixture.matchDate
        allFixtures ++
      get_h2h_features fixture.homeTeamId fixture.awayTeamId fixture.matchDate
        allFixtures ++
      get_league_position_features fixture.homeTeamId fixture.awayTeamId
        fixture.season fixture.matchDate allFixtures ++
      get_goal_features fixture.homeTeamId fixture.awayTeamId fixture.matchDate
        allFixtures
  let labels : FDict :=
    match fixture.homeScore, fixture.awayScore with
    | some hs, some as_ =>
      let totalGoals := hs + as_
      [("outcome",
         .str (if as_ < hs then "home_win" else if hs < as_ then "away_win"
           else "draw")),
       ("outcome_encoded", .num (if as_ < hs then 0 else if hs < as_ then 2 else 1)),
       ("over_2_5", .num (if 2 < totalGoals then 1 else 0)),
       ("over_1_5", .num (if 1 < totalGoals then 1 else 0)),
       ("over_3_5", .num (if 3 < totalGoals then 1 else 0)),
       ("btts", .num (if 0 < hs && 0 < as_ then 1 else 0)),
       ("home_score", .num (hs : ℚ)),
       ("away_score", .num (as_ : ℚ)),
       ("total_goals", .num (totalGoals : ℚ))]
    | _, _ => []
  meta ++ groups.map (fun p => (p.1, FVal.num p.2)) ++ labels

/-- The `base_features` list of `get_feature_columns` (feature_builder.py
lines 152-192): form, h2h and league-position feature names. -/
def base_features : List String :=
  ["home_form_last_5_points", "home_form_last_5_wins", "home_form_last_5_draws",
   "home_form_last_5_losses", "home_form_last_5_goals_scored",
   "home_form_last_5_goals_conceded", "home_form_last_5_goal_diff",
   "home_form_last_5_clean_sheets", "home_form_last_5_failed_to_score",
   "home_form_last_5_avg_points", "home_form_last_5_avg_goals_scored",
   "home_form_last_5_avg_goals_conceded",
   "away_form_last_5_points", "away_form_last_5_wins", "away_form_last_5_draws",
   "away_form_last_5_losses", "away_form_last_5_goals_scored",
   "away_form_last_5_goals_conceded", "away_form_last_5_goal_diff",
   "away_form_last_5_clean_sheets", "away_form_last_5_failed_to_score",
   "away_form_last_5_avg_points", "away_form_last_5_avg_goals_scored",
   "away_form_last_5_avg_goals_conceded",
   "home_form_last_3_points", "home_form_last_3_wins",
   "home_form_last_3_goals_scored", "home_form_last_3_goals_conceded",
   "home_form_last_3_avg_points", "home_form_last_3_avg_goals_scored",
   "away_form_last_3_points", "away_form_last_3_wins",
   "away_form_last_3_goals_scored", "away_form_last_3_goals_conceded",
   "away_form_last_3_avg_points", "away_form_last_3_avg_goals_scored",
   "form_points_diff", "form_goals_scored_diff", "form_goal_diff_diff",
   "h2h_games_played", "h2h_home_wins", "h2h_away_wins", "h2h_draws",
   "h2h_home_goals_scored", "h2h_away_goals_scored", "h2h_goal_diff",
   "h2h_home_win_pct", "h2h_away_win_pct", "h2h_draw_pct",
   "h2h_avg_total_goals", "h2h_avg_home_goals", "h2h_avg_away_goals",
   "h2h_home_as_home_wins", "h2h_home_as_home_games", "h2h_home_as_home_win_pct",
   "home_position", "away_position", "position_diff",
   "home_points", "away_points", "points_diff",
   "home_ppg", "away_ppg", "ppg_diff",
   "home_season_goals_for", "away_season_goals_for",
   "home_season_goals_against", "away_season_goals_against",
   "home_avg_goals_scored", "away_avg_goals_scored",
   "home_avg_goals_conceded", "away_avg_goals_conceded",
   "home_goal_diff", "away_goal_diff", "goal_diff_diff",
   "home_games_played", "away_games_played",
   "home_win_pct", "away_win_pct"]

/-- The `goal_features` list of `get_feature_columns` (feature_builder.py
lines 195-226): goal-pattern feature names. -/
def goal_feature_columns : List String :=
  ["home_goals_scored_avg", "home_goals_conceded_avg", "home_total_goals_avg",
   "home_over_2_5_pct", "home_over_1_5_pct", "home_over_3_5_pct",
   "home_btts_pct", "home_clean_sheet_pct", "home_failed_to_score_pct",
   "home_games_analyzed",
   "away_goals_scored_avg", "away_goals_conceded_avg", "away_total_goals_avg",
   "away_over_2_5_pct", "away_over_1_5_pct", "away_over_3_5_pct",
   "away_btts_pct", "away_clean_sheet_pct", "away_failed_to_score_pct",
   "away_games_analyzed",
   "home_home_goals_scored_avg", "home_home_goals_conceded_avg",
   "home_home_total_goals_avg", "home_home_over_2_5_pct", "home_home_btts_pct",
   "home_home_clean_sheet_pct", "home_home_failed_to_score_pct",
   "away_away_goals_scored_avg", "away_away_goals_conceded_avg",
   "away_away_total_goals_avg", "away_away_over_2_5_pct", "away_away_btts_pct",
   "away_away_clean_sheet_pct", "away_away_failed_to_score_pct",
   "h2h_total_goals_avg", "h2h_over_2_5_pct", "h2h_btts_pct",
   "h2h_home_team_goals_avg", "h2h_away_team_goals_avg",
   "combined_goals_avg", "combined_conceded_avg", "combined_total_goals_avg",
   "expected_total_goals", "both_over_2_5_pct",
   "both_btts_pct", "btts_potential"]

/-- The embedding of `get_feature_columns` (feature_builder.py): the
declared feature-name list per market. -/
def get_feature_columns (market : String) : List String :=
  if market = "1x2" then base_features
  else if market = "over_under" then base_features ++ goal_feature_columns
  else if market = "btts" then base_features ++ goal_feature_columns
  else base_features ++ goal_feature_columns

/- ----------------------------------------------------------------
api/predictions.py
---------------------------------------------------------------- -/

/-- A loaded model artifact: the classifier is opaque, exposed only as
`predictProba` over an ordered numeric vector, together with the ordered
feature-name list it was trained on and a version tag. -/
structure ModelData where
  feature_names : List String
  predictProba : List ℚ → List ℚ
  version : String

/-- The market table `MARKETS` (predictions.py lines 27-43), mapping each
market name to its artifact file name. -/
def MARKETS : List (String × String) :=
  [("1x2", "xgboost_v1.pkl"),
   ("over_under", "xgboost_over_under_model.pkl"),
   ("btts", "xgboost_btts_model.pkl")]

/-- The model cache `_model_cache` (predictions.py line 24), threaded
explicitly through the serving functions. -/
abbrev ModelCache := List (String × ModelData)

/-- The embedding of `get_model` (predictions.py lines 46-72): reject an
unknown market, return a cached artifact unchanged, otherwise load from
the backing store (`store` models the pickle files on disk) and cache it;
a missing artifact is the `ModelUnavailable` error. -/
def get_model (store : String → Option ModelData) (cache : ModelCache)
    (market : String) : Except String (ModelData × ModelCache) :=
  if (MARKETS.lookup market).isNone then
    .error ("Unknown market: " ++ market)
  else
    match cache.lookup market with
    | some m => .ok (m, cache)
    | none =>
      match store market with
      | none => .error ("Model not found for " ++ market)
      | some m => .ok (m, cache ++ [(market, m)])

/-- Index of the first maximal element, the embedding of `np.argmax`
(ties resolved to the lowest index): auxiliary scan. -/
def argmaxAux : List ℚ → Nat → Nat → ℚ → Nat
  | [], _, best, _ => best
  | x :: xs, i, best, bestVal =>
    if bestVal < x then argmaxAux xs (i + 1) i x
    else argmaxAux xs (i + 1) best bestVal

/-- Index of the first maximal element of a probability list
(`int(np.argmax(probabilities))`); 0 on the empty list. -/
def argmaxIdx : List ℚ → Nat
  | [] => 0
  | x :: xs => argmaxAux xs 1 0 x

/-- A single-market prediction response (the `MarketPrediction` model):
per-class probability map, chosen outcome and its probability. -/
structure MarketPrediction where
  market : String
  description : String
  probabilities : List (String × ℚ)
  predicted_outcome : String
  confidence : ℚ
deriving Repr

/-- The 1x2 outcome map `{0: home_win, 1: draw, 2: away_win}`. -/
def outcomeMap1x2 (i : Nat) : String :=
  if i = 0 then "home_win" else if i = 1 then "draw" else "away_win"

/-- The embedding of `make_1x2_prediction` (predictions.py lines
187-210): build the model input in the artifact's declared feature order
(missing name contributes 0), run inference, and pick the arg-max class. -/
def make_1x2_prediction (features : FDict) (modelData : ModelData) :
    MarketPrediction :=
  let featureVector := modelData.feature_names.map (fdGet features)
  let probabilities := modelData.predictProba featureVector
  let predictedClass := argmaxIdx probabilities
  { market := "1x2"
    description := "Match Result (Home/Draw/Away)"
    probabilities :=
      [("home_win", probabilities.getD 0 0),
       ("draw", probabilities.getD 1 0),
       ("away_win", probabilities.getD 2 0)]
    predicted_outcome := outcomeMap1x2 predictedClass
    confidence := probabilities.getD predictedClass 0 }

/-- The binary outcome label pair per market (predictions.py lines
223-230). -/
def binaryNames (market : String) : String × String :=
  if market = "over_under" then ("under_2_5", "over_2_5") else ("no", "yes")

/-- The embedding of `make_binary_prediction` (predictions.py lines
213-243) for the over/under and BTTS markets. -/
def make_binary_prediction (features : FDict) (modelData : ModelData)
    (market : String) : MarketPrediction :=
  let featureVector := modelData.feature_names.map (fdGet features)
  let probabilities := modelData.predictProba featureVector
  let names := binaryNames market
  let predictedClass := argmaxIdx probabilities
  { market := market
    description :=
      if market = "over_under" then "Over/Under 2.5 Goals" else "Both Teams to Score"
    probabilities :=
      [(names.1, probabilities.getD 0 0), (names.2, probabilities.getD 1 0)]
    predicted_outcome := if predictedClass = 0 then names.1 else names.2
    confidence := probabilities.getD predictedClass 0 }

/-- The season rule of `extract_fixture_features` (predictions.py line
178): the season is the match date's calendar year from August onwards,
and the preceding year before August. -/
def seasonOf (d : DTime) : Int :=
  if 8 ≤ d.month then d.year else d.year - 1

/-- The embedding of `extract_fixture_features` (predictions.py lines
168-184): the fixture record assembled at inference time from the
request — scores null, status "NS", and the season derived from the
match date alone.  The training-fixture fetch is passed in as
`allFixtures`. -/
def extract_fixture_features (homeTeamId awayTeamId : Nat) (matchDate : DTime)
    (fixtureId : Option Nat) (allFixtures : List Fixture) : FDict :=
  let fixture : Fixture :=
    { id := fixtureId.getD 0
      season := seasonOf matchDate
      matchDate := matchDate
      homeTeamId := homeTeamId
      awayTeamId := awayTeamId
      homeScore := none
      awayScore := none
      status := "NS" }
  extract_features_for_fixture fixture allFixtures

/-- One step of the market loop of `make_multi_market_prediction`
(predictions.py lines 275-286): an unavailable model is skipped, an
available one produces that market's prediction and may extend the
cache. -/
def multiMarketStep (store : String → Option ModelData) (features : FDict)
    (s : ModelCache × List (String × MarketPrediction)) (market : String) :
    ModelCache × List (String × MarketPrediction) :=
  match get_model store s.1 market with
  | .error _ => s
  | .ok (m, cache') =>
    (cache',
      s.2 ++ [(market,
        if market = "1x2" then make_1x2_prediction features m
        else make_binary_prediction features m market)])

/-- The embedding of `make_multi_market_prediction` (predictions.py lines
246-296), returning the per-market prediction map and the final cache;
features are extracted once via `extract_fixture_features`. -/
def make_multi_market_prediction (store : String → Option ModelData)
    (cache : ModelCache) (homeTeamId awayTeamId : Nat) (matchDate : DTime)
    (fixtureId : Option Nat) (allFixtures : List Fixture)
    (markets : List String) : List (String × MarketPrediction) × ModelCache :=
  let features := extract_fixture_features homeTeamId awayTeamId matchDate
    fixtureId allFixtures
  let s := markets.foldl (multiMarketStep store features) (cache, [])
  (s.2, s.1)

/-- A single batch item (the `PredictionRequest` model): the match date
arrives as an unparsed string. -/
structure PredictionRequest where
  home_team_id : Nat
  away_team_id : Nat
  match_date : String
  fixture_id : Option Nat
deriving DecidableEq, Repr

/-- A legacy per-fixture prediction result (the `PredictionResponse`
model, error variant included). -/
structure PredResult where
  fixture_id : Option Nat
  home_team_id : Nat
  away_team_id : Nat
  model_version : String
  predicted_outcome : String
  confidence : ℚ
  features_used : Nat
deriving DecidableEq, Repr

/-- The error entry appended by `predict_batch` when an item fails
(predictions.py lines 434-444). -/
def errorEntry (fx : PredictionRequest) : PredResult :=
  { fixture_id := fx.fixture_id
    home_team_id := fx.home_team_id
    away_team_id := fx.away_team_id
    model_version := "error"
    predicted_outcome := "error"
    confidence := 0
    features_used := 0 }

/-- The batch response (the `BatchPredictionResponse` model). -/
structure BatchResponse where
  predictions : List PredResult
  model_version : String
  count : Nat
deriving DecidableEq, Repr

/-- The embedding of `predict_batch` (predictions.py lines 416-453):
each item's date parsing and prediction (`mkPred`, covering the fallible
work inside the per-item `try`) either yields its result or is replaced
by the error entry at the same position; the final `get_model('1x2')`
call for the version string fails the whole request when the 1x2
artifact is unavailable. -/
def predict_batch (mkPred : PredictionRequest → Except String PredResult)
    (store : String → Option ModelData) (cache : ModelCache)
    (reqs : List PredictionRequest) : Except String BatchResponse :=
  let predictions := reqs.map fun fx =>
    match mkPred fx with
    | .ok r => r
    | .error _ => errorEntry fx
  match get_model store cache "1x2" with
  | .error e => .error e
  | .ok (m, _) =>
    .ok { predictions := predictions
          model_version := m.version
          count := predictions.length }

/- ----------------------------------------------------------------
Helper lemmas
---------------------------------------------------------------- -/

/-- Membership in a take-of-sort-of-filter window implies the filter
predicate held. -/
lemma filterPred_of_mem_window {p : Fixture → Bool} {l : List Fixture}
    {n : Nat} {f : Fixture}
    (h : f ∈ (sortByDateDesc (l.filter p)).take n) : p f = true := by
  have h1 : f ∈ sortByDateDesc (l.filter p) := List.mem_of_mem_take h
  have h2 : f ∈ l.filter p := by
    unfold sortByDateDesc at h1
    exact (List.mem_insertionSort dateDescRel).1 h1
  exact (List.mem_filter.1 h2).2

/-- A date-time is never strictly less than itself. -/
lemma DTime.ltb_irrefl (d : DTime) : d.ltb d = false := by
  simp [DTime.ltb]

/- ----------------------------------------------------------------
C1
---------------------------------------------------------------- -/

/-- C1. For every aggregator (form, head-to-head, standings,
goal-pattern), every cutoff date and every fixture history, no fixture
dated at or after the cutoff appears in the aggregator's selected
window: every selected fixture satisfies the strict date comparison, and
in particular a fixture dated exactly at the cutoff is excluded from
every window. -/
theorem C1_no_leakage (teamId homeTeamId awayTeamId : Nat) (cutoff : DTime)
    (hist : List Fixture) (n : Nat) (isHome : Bool) (season : Int) (f : Fixture) :
    (f ∈ formWindow teamId cutoff hist n → f.matchDate.ltb cutoff = true) ∧
    (f ∈ homeAwayFormWindow teamId cutoff isHome hist n →
      f.matchDate.ltb cutoff = true) ∧
    (f ∈ h2hWindow homeTeamId awayTeamId cutoff hist n →
      f.matchDate.ltb cutoff = true) ∧
    (f ∈ standingsFilter season cutoff hist → f.matchDate.ltb cutoff = true) ∧
    (f ∈ goalWindow teamId cutoff hist n → f.matchDate.ltb cutoff = true) ∧
    (f ∈ homeAwayGoalWindow teamId cutoff isHome hist n →
      f.matchDate.ltb cutoff = true) ∧
    (f ∈ h2hGoalWindow homeTeamId awayTeamId cutoff hist n →
      f.matchDate.ltb cutoff = true) ∧
    (f.matchDate = cutoff →
      f ∉ formWindow teamId cutoff hist n ∧
      f ∉ homeAwayFormWindow teamId cutoff isHome hist n ∧
      f ∉ h2hWindow homeTeamId awayTeamId cutoff hist n ∧
      f ∉ standingsFilter season cutoff hist ∧
      f ∉ goalWindow teamId cutoff hist n ∧
      f ∉ homeAwayGoalWindow teamId cutoff isHome hist n ∧
      f ∉ h2hGoalWindow homeTeamId awayTeamId cutoff hist n) := by
  have hform : f ∈ formWindow teamId cutoff hist n → f.matchDate.ltb cutoff = true := by
    intro h
    have := filterPred_of_mem_window (p := fun f =>
      (f.homeTeamId == teamId || f.awayTeamId == teamId) &&
        f.matchDate.ltb cutoff && f.status == "FT" && f.homeScore.isSome) h
    simp only [Bool.and_eq_true] at this
    exact this.1.1.2
  have hhaform : f ∈ homeAwayFormWindow teamId cutoff isHome hist n →
      f.matchDate.ltb cutoff = true := by
    intro h
    unfold homeAwayFormWindow homeAwayFormFilter at h
    cases isHome with
    | true =>
      rw [if_pos rfl] at h
      have := filterPred_of_mem_window h
      simp only [Bool.and_eq_true] at this
      exact this.1.1.2
    | false =>
      rw [if_neg Bool.false_ne_true] at h
      have := filterPred_of_mem_window h
      simp only [Bool.and_eq_true] at this
      exact this.1.1.2
  have hh2h : f ∈ h2hWindow homeTeamId awayTeamId cutoff hist n →
      f.matchDate.ltb cutoff = true := by
    intro h
    have := filterPred_of_mem_window (p := fun f =>
      ((f.homeTeamId == homeTeamId && f.awayTeamId == awayTeamId) ||
        (f.homeTeamId == awayTeamId && f.awayTeamId == homeTeamId)) &&
        f.matchDate.ltb cutoff && f.status == "Match Finished" &&
        f.homeScore.isSome) h
    simp only [Bool.and_eq_true] at this
    exact this.1.1.2
  have hstand : f ∈ standingsFilter season cutoff hist →
      f.matchDate.ltb cutoff = true := by
    intro h
    have := (List.mem_filter.1 h).2
    simp only [Bool.and_eq_true] at this
    exact this.1.1.2
  have hgoal : f ∈ goalWindow teamId cutoff hist n → f.matchDate.ltb cutoff = true := by
    intro h
    have := filterPred_of_mem_window (p := fun f =>
      (f.homeTeamId == teamId || f.awayTeamId == teamId) &&
        f.matchDate.ltb cutoff && f.status == "FT" && f.homeScore.isSome) h
    simp only [Bool.and_eq_true] at this
    exact this.1.1.2
  have hhagoal : f ∈ homeAwayGoalWindow teamId cutoff isHome hist n →
      f.matchDate.ltb cutoff = true := by
    intro h
    unfold homeAwayGoalWindow homeAwayFormFilter at h
    cases isHome with
    | true =>
      rw [if_pos rfl] at h
      have := filterPred_of_mem_window h
      simp only [Bool.and_eq_true] at this
      exact this.1.1.2
    | false =>
      rw [if_neg Bool.false_ne_true] at h
      have := filterPred_of_mem_window h
      simp only [Bool.and_eq_true] at this
      exact this.1.1.2
  have hh2hgoal : f ∈ h2hGoalWindow homeTeamId awayTeamId cutoff hist n →
      f.matchDate.ltb cutoff = true := by
    intro h
    have := filterPred_of_mem_window (p := fun f =>
      ((f.homeTeamId == homeTeamId && f.awayTeamId == awayTeamId) ||
        (f.homeTeamId == awayTeamId && f.awayTeamId == homeTeamId)) &&
        f.matchDate.ltb cutoff && f.status == "FT" && f.homeScore.isSome) h
    simp only [Bool.and_eq_true] at this
    exact this.1.1.2
  refine ⟨hform, hhaform, hh2h, hstand, hgoal, hhagoal, hh2hgoal, ?_⟩
  intro heq
  have hnot : f.matchDate.ltb cutoff ≠ true := by
    rw [heq]; simp [DTime.ltb_irrefl]
  exact ⟨fun h => hnot (hform h), fun h => hnot (hhaform h), fun h => hnot (hh2h h),
    fun h => hnot (hstand h), fun h => hnot (hgoal h), fun h => hnot (hhagoal h),
    fun h => hnot (hh2hgoal h)⟩

/-- Shared concrete cutoff date for the example scenarios. -/
def exCut : DTime := ⟨2024, 2, 1⟩

/-- Concrete "FT" fixture (team 1 hosting team 2, 2-0) used to exercise
the windows that filter on status "FT". -/
def exFxA : Fixture := ⟨1, 2023, ⟨2024, 1, 5⟩, 1, 2, some 2, some 0, "FT"⟩

/-- Concrete "Match Finished" fixture used to exercise the h2h outcome
window. -/
def exFxB : Fixture := ⟨2, 2023, ⟨2024, 1, 12⟩, 1, 2, some 1, some 0, "Match Finished"⟩

/-- Concrete fixture dated exactly at the cutoff. -/
def exFxC : Fixture := ⟨3, 2023, ⟨2024, 2, 1⟩, 1, 2, some 1, some 1, "FT"⟩

/-- Concrete two-fixture history containing both status spellings. -/
def exHist : List Fixture := [exFxA, exFxB, exFxC]

/-- Witness for C1: on a concrete history, an eligible "FT" fixture is in
the form window with its date strictly below the cutoff, the "Match
Finished" fixture is in the h2h window likewise, and the fixture dated
exactly at the cutoff is excluded from the form window. -/
theorem C1_no_leakage_witness :
    (exFxA ∈ formWindow 1 exCut exHist 5 ∧ exFxA.matchDate.ltb exCut = true) ∧
    (exFxB ∈ h2hWindow 1 2 exCut exHist 5 ∧ exFxB.matchDate.ltb exCut = true) ∧
    (exFxC.matchDate = exCut ∧ exFxC ∉ formWindow 1 exCut exHist 5) :=
  ⟨⟨by decide, (C1_no_leakage 1 1 2 exCut exHist 5 true 2023 exFxA).1 (by decide)⟩,
   ⟨by decide, (C1_no_leakage 1 1 2 exCut exHist 5 true 2023 exFxB).2.2.1 (by decide)⟩,
   ⟨by decide,
     ((C1_no_leakage 1 1 2 exCut exHist 5 true 2023 exFxC).2.2.2.2.2.2.2
       (by decide)).1⟩⟩

/- ----------------------------------------------------------------
C4
---------------------------------------------------------------- -/

/-- The C4 scenario history: team 1 wins 2-0 and 2-1 and loses 0-3, all
completed ("FT") and dated before the cutoff `exCut`. -/
def c4hist : List Fixture :=
  [⟨1, 2023, ⟨2024, 1, 1⟩, 1, 2, some 2, some 0, "FT"⟩,
   ⟨2, 2023, ⟨2024, 1, 8⟩, 1, 2, some 2, some 1, "FT"⟩,
   ⟨3, 2023, ⟨2024, 1, 15⟩, 1, 2, some 0, some 3, "FT"⟩]

/-- Counterexample to C4 as stated: on the claim's exact scenario (wins
2-0 and 2-1, loss 0-3) the form aggregator reports goals scored = 4 (not
5), goals conceded = 4 (not 5) and clean sheets = 1 (not 2). -/
theorem C4_counterexample :
    featLookup (calculate_team_form_last_n 1 exCut c4hist 5)
        "form_last_5_goals_scored" = some 4 ∧
      featLookup (calculate_team_form_last_n 1 exCut c4hist 5)
        "form_last_5_goals_scored" ≠ some 5 ∧
      featLookup (calculate_team_form_last_n 1 exCut c4hist 5)
        "form_last_5_goals_conceded" = some 4 ∧
      featLookup (calculate_team_form_last_n 1 exCut c4hist 5)
        "form_last_5_goals_conceded" ≠ some 5 ∧
      featLookup (calculate_team_form_last_n 1 exCut c4hist 5)
        "form_last_5_clean_sheets" = some 1 ∧
      featLookup (calculate_team_form_last_n 1 exCut c4hist 5)
        "form_last_5_clean_sheets" ≠ some 2 := by
  refine ⟨by decide, by decide, by decide, by decide, by decide, by decide⟩

/-- C4 (amended). For the team with exactly 3 eligible prior fixtures —
wins 2-0 and 2-1 and a loss 0-3 — and window size 5, the form aggregator
reports points = 6, goals scored = 4, goals conceded = 4, clean sheets =
1, failed-to-score = 1, games played = 3 and average points = 2. -/
theorem C4_form_example :
    featLookup (calculate_team_form_last_n 1 exCut c4hist 5)
        "form_last_5_points" = some 6 ∧
      featLookup (calculate_team_form_last_n 1 exCut c4hist 5)
        "form_last_5_goals_scored" = some 4 ∧
      featLookup (calculate_team_form_last_n 1 exCut c4hist 5)
        "form_last_5_goals_conceded" = some 4 ∧
      featLookup (calculate_team_form_last_n 1 exCut c4hist 5)
        "form_last_5_clean_sheets" = some 1 ∧
      featLookup (calculate_team_form_last_n 1 exCut c4hist 5)
        "form_last_5_failed_to_score" = some 1 ∧
      featLookup (calculate_team_form_last_n 1 exCut c4hist 5)
        "form_last_5_games_played" = some 3 ∧
      featLookup (calculate_team_form_last_n 1 exCut c4hist 5)
        "form_last_5_avg_points" = some 2 := by
  refine ⟨by decide, by decide, by decide, by decide, by decide, by decide, ?_⟩
  have h : featLookup (calculate_team_form_last_n 1 exCut c4hist 5)
      "form_last_5_avg_points" = some (((6 : ℕ) : ℚ) / ((3 : ℕ) : ℚ)) := rfl
  rw [h]
  norm_num

/- ----------------------------------------------------------------
C2
---------------------------------------------------------------- -/

/-- The C2 scenario history exactly as the fixture store supplies it
(`get_fixtures_for_training` returns only rows with status = "FT"): the
current home team (1) won both prior meetings as the historical home
side, 2-0 and 1-0. -/
def c2hist : List Fixture :=
  [⟨1, 2023, ⟨2024, 1, 1⟩, 1, 2, some 2, some 0, "FT"⟩,
   ⟨2, 2023, ⟨2024, 1, 8⟩, 1, 2, some 1, some 0, "FT"⟩]

/-- The same two meetings spelled with the status string the h2h
aggregator actually tests for. -/
def c2histMF : List Fixture :=
  [⟨1, 2023, ⟨2024, 1, 1⟩, 1, 2, some 2, some 0, "Match Finished"⟩,
   ⟨2, 2023, ⟨2024, 1, 8⟩, 1, 2, some 1, some 0, "Match Finished"⟩]

/-- C2 evaluated on the code: on store-supplied history (status "FT")
the h2h aggregator's "Match Finished" status filter rejects every
meeting and reports the all-zero result instead of the claimed
2 / 2 / 2 / 1.0; on the same meetings relabelled "Match Finished" it
reports exactly the claimed numbers, pinning the status mismatch as the
defect. -/
theorem C2_h2h_status_bug :
    (featLookup (calculate_h2h_stats 1 2 exCut c2hist 5) "h2h_games_played" =
        some 0 ∧
      featLookup (calculate_h2h_stats 1 2 exCut c2hist 5) "h2h_home_wins" =
        some 0 ∧
      featLookup (calculate_h2h_stats 1 2 exCut c2hist 5) "h2h_home_as_home_wins" =
        some 0 ∧
      featLookup (calculate_h2h_stats 1 2 exCut c2hist 5) "h2h_home_win_pct" =
        some 0) ∧
    (featLookup (calculate_h2h_stats 1 2 exCut c2histMF 5) "h2h_home_wins" =
        some 2 ∧
      featLookup (calculate_h2h_stats 1 2 exCut c2histMF 5) "h2h_home_as_home_wins" =
        some 2 ∧
      featLookup (calculate_h2h_stats 1 2 exCut c2histMF 5) "h2h_home_as_home_games" =
        some 2 ∧
      featLookup (calculate_h2h_stats 1 2 exCut c2histMF 5) "h2h_home_win_pct" =
        some 1) := by
  refine ⟨⟨by decide, by decide, by decide, by decide⟩,
    ⟨by decide, by decide, by decide, ?_⟩⟩
  have h : featLookup (calculate_h2h_stats 1 2 exCut c2histMF 5) "h2h_home_win_pct"
      = some (((2 : ℕ) : ℚ) / ((2 : ℕ) : ℚ)) := rfl
  rw [h]
  norm_num

/- ----------------------------------------------------------------
C7
---------------------------------------------------------------- -/

/-- C7. Whenever the final 1x2 model lookup succeeds, batch prediction
over N requests returns exactly N per-fixture results in input order:
the i-th result is computed from the i-th item alone, and an item whose
date parsing or prediction fails yields the error-flagged entry at that
item's position, leaving every other item's result untouched. -/
theorem C7_batch_shape (mkPred : PredictionRequest → Except String PredResult)
    (store : String → Option ModelData) (cache : ModelCache)
    (reqs : List PredictionRequest) (m : ModelData) (cache' : ModelCache)
    (hm : get_model store cache "1x2" = .ok (m, cache')) :
    ∃ resp, predict_batch mkPred store cache reqs = .ok resp ∧
      resp.predictions.length = reqs.length ∧
      resp.count = reqs.length ∧
      (∀ (i : Nat) (fx : PredictionRequest), reqs[i]? = some fx →
        resp.predictions[i]? = some
          (match mkPred fx with
           | .ok r => r
           | .error _ => errorEntry fx)) ∧
      (∀ (i : Nat) (fx : PredictionRequest) (e : String), reqs[i]? = some fx →
        mkPred fx = .error e →
        resp.predictions[i]? = some (errorEntry fx)) := by
  simp only [predict_batch, hm]
  refine ⟨_, rfl, by simp, by simp, ?_, ?_⟩
  · intro i fx hfx
    rw [List.getElem?_map, hfx]
    rfl
  · intro i fx e hfx herr
    rw [List.getElem?_map, hfx]
    simp [herr]

/-- A dummy model artifact used by the serving-layer witnesses. -/
def dummyModel : ModelData :=
  { feature_names := [], predictProba := fun _ => [1, 0, 0], version := "v1" }

/-- A backing store holding only the 1x2 artifact. -/
def only1x2Store : String → Option ModelData := fun market =>
  if market = "1x2" then some dummyModel else none

/-- The concrete two-item batch used by the C7 witness; the second item
carries an unparseable date. -/
def c7reqs : List PredictionRequest :=
  [{ home_team_id := 1, away_team_id := 2, match_date := "2024-02-01",
     fixture_id := some 1 },
   { home_team_id := 3, away_team_id := 4, match_date := "not-a-date",
     fixture_id := some 2 }]

/-- The per-item prediction oracle of the C7 witness: the first item
succeeds, everything else fails at date parsing. -/
def c7mkPred (fx : PredictionRequest) : Except String PredResult :=
  if fx.fixture_id = some 1 then
    .ok { fixture_id := fx.fixture_id, home_team_id := fx.home_team_id,
          away_team_id := fx.away_team_id, model_version := "v1",
          predicted_outcome := "home_win", confidence := 1, features_used := 0 }
  else .error "bad date"

/-- Witness for C7: the concrete batch with one failing item yields a
successful two-entry response. -/
theorem C7_batch_shape_witness :
    get_model only1x2Store [] "1x2" = .ok (dummyModel, [("1x2", dummyModel)]) ∧
      ∃ resp, predict_batch c7mkPred only1x2Store [] c7reqs = .ok resp ∧
        resp.predictions.length = 2 := by
  refine ⟨rfl, ?_⟩
  obtain ⟨resp, h1, h2, -, -, -⟩ :=
    C7_batch_shape c7mkPred only1x2Store [] c7reqs dummyModel
      [("1x2", dummyModel)] rfl
  exact ⟨resp, h1, h2.trans rfl⟩

/- ----------------------------------------------------------------
C8
---------------------------------------------------------------- -/

/-- C8. For every multi-market request for markets ["1x2", "btts"]
against a backing store in which only the 1x2 artifact is loadable, the
result contains exactly one market entry, for 1x2: the unavailable
market is skipped (its `ModelUnavailable` error is swallowed inside the
loop) rather than failing the request. -/
theorem C8_unavailable_market_skipped (store : String → Option ModelData)
    (m : ModelData) (homeTeamId awayTeamId : Nat) (matchDate : DTime)
    (fixtureId : Option Nat) (hist : List Fixture)
    (h1 : store "1x2" = some m) (h2 : store "btts" = none) :
    (make_multi_market_prediction store [] homeTeamId awayTeamId matchDate
        fixtureId hist ["1x2", "btts"]).1.map Prod.fst = ["1x2"] := by
  simp [make_multi_market_prediction, multiMarketStep, get_model, MARKETS,
    List.lookup, h1, h2]

/-- Witness for C8: concrete request against the store holding only the
1x2 artifact. -/
theorem C8_unavailable_market_skipped_witness :
    (only1x2Store "1x2" = some dummyModel ∧ only1x2Store "btts" = none) ∧
      (make_multi_market_prediction only1x2Store [] 1 2 ⟨2024, 2, 1⟩ none []
          ["1x2", "btts"]).1.map Prod.fst = ["1x2"] :=
  ⟨⟨rfl, rfl⟩,
    C8_unavailable_market_skipped only1x2Store dummyModel 1 2 ⟨2024, 2, 1⟩ none []
      rfl rfl⟩

/- ----------------------------------------------------------------
C6: arg-max lemmas
---------------------------------------------------------------- -/

/-- Invariant-carrying specification of the `argmaxAux` scan: starting
from a best index below the scan position whose value dominates every
earlier entry (strictly dominating entries before the best index), the
scan returns a maximal index whose earlier entries are strictly
smaller. -/
lemma argmaxAux_spec (orig : List ℚ) (l : List ℚ) :
    ∀ (k best : Nat), l = orig.drop k → best < k → k ≤ orig.length →
      (∀ j, j < k → orig.getD j 0 ≤ orig.getD best 0) →
      (∀ j, j < best → orig.getD j 0 < orig.getD best 0) →
      argmaxAux l k best (orig.getD best 0) < orig.length ∧
        (∀ j, j < orig.length →
          orig.getD j 0 ≤ orig.getD (argmaxAux l k best (orig.getD best 0)) 0) ∧
        (∀ j, j < argmaxAux l k best (orig.getD best 0) →
          orig.getD j 0 < orig.getD (argmaxAux l k best (orig.getD best 0)) 0) := by
  induction l with
  | nil =>
    intro k best hdrop hbk hk hmax hstrict
    have hlen : orig.length ≤ k := by
      by_contra h
      push_neg at h
      have := List.drop_eq_getElem_cons h
      rw [← hdrop] at this
      exact List.noConfusion this
    have hkeq : k = orig.length := le_antisymm hk hlen
    subst hkeq
    exact ⟨hbk, fun j hj => hmax j hj, hstrict⟩
  | cons x l' ih =>
    intro k best hdrop hbk hk hmax hstrict
    have hklt : k < orig.length := by
      by_contra h
      push_neg at h
      rw [List.drop_eq_nil_of_le h] at hdrop
      exact List.noConfusion hdrop
    have hcons := List.drop_eq_getElem_cons hklt
    rw [← hdrop] at hcons
    rw [List.cons.injEq] at hcons
    have hx : x = orig.getD k 0 := by
      rw [hcons.1]
      simp [List.getD_eq_getElem?_getD, List.getElem?_eq_getElem hklt]
    have hl' : l' = orig.drop (k + 1) := hcons.2
    show argmaxAux (x :: l') k best (orig.getD best 0) < orig.length ∧ _
    rw [argmaxAux]
    by_cases hlt : orig.getD best 0 < x
    · rw [if_pos hlt, hx]
      exact ih (k + 1) k hl' (Nat.lt_succ_self k) hklt
        (fun j hj => by
          rcases Nat.lt_succ_iff_lt_or_eq.1 hj with hj' | hj'
          · exact le_of_lt (lt_of_le_of_lt (hmax j hj') (hx ▸ hlt))
          · subst hj'; exact le_refl _)
        (fun j hj => lt_of_le_of_lt (hmax j hj) (hx ▸ hlt))
    · rw [if_neg hlt]
      push_neg at hlt
      rw [hx] at hlt
      exact ih (k + 1) best hl' (Nat.lt_succ_of_lt hbk) hklt
        (fun j hj => by
          rcases Nat.lt_succ_iff_lt_or_eq.1 hj with hj' | hj'
          · exact hmax j hj'
          · subst hj'; exact hlt)
        hstrict

/-- `argmaxIdx` returns an in-range index of a maximal element, and every
entry before it is strictly smaller (ties resolve to the lowest index). -/
lemma argmaxIdx_spec (l : List ℚ) (hl : 0 < l.length) :
    argmaxIdx l < l.length ∧
      (∀ j, j < l.length → l.getD j 0 ≤ l.getD (argmaxIdx l) 0) ∧
      (∀ j, j < argmaxIdx l → l.getD j 0 < l.getD (argmaxIdx l) 0) := by
  cases l with
  | nil => simp at hl
  | cons x xs =>
    have h0 : x = (x :: xs).getD 0 0 := rfl
    have hd : xs = (x :: xs).drop 1 := rfl
    have h := argmaxAux_spec (x :: xs) xs 1 0 hd Nat.zero_lt_one
      (Nat.succ_le_of_lt hl)
      (fun j hj => by interval_cases j; exact le_refl _)
      (fun j hj => absurd hj (Nat.not_lt_zero j))
    rw [argmaxIdx, h0]
    exact h

/- ----------------------------------------------------------------
C6
---------------------------------------------------------------- -/

/-- C6. Assuming the classifier output is a probability distribution
over the market's classes (3 for 1x2, 2 for the binary markets), every
market prediction returned has: a per-class probability map summing to 1
(hence within 1e-6 of 1), a reported confidence equal to the probability
assigned to the reported outcome, the maximal class probability as
confidence, and ties for the maximum resolved to the lowest class
index. -/
theorem C6_probability_semantics (features : FDict) (md : ModelData)
    (market : String) (probs : List ℚ)
    (hp : probs = md.predictProba (md.feature_names.map (fdGet features))) :
    (probs.length = 3 → probs.sum = 1 →
      ((make_1x2_prediction features md).probabilities.map Prod.snd).sum = 1 ∧
      |((make_1x2_prediction features md).probabilities.map Prod.snd).sum - 1| ≤
        1 / 1000000 ∧
      List.lookup (make_1x2_prediction features md).predicted_outcome
          (make_1x2_prediction features md).probabilities =
        some (make_1x2_prediction features md).confidence ∧
      (∀ j, j < probs.length →
        probs.getD j 0 ≤ (make_1x2_prediction features md).confidence) ∧
      (∀ j, j < argmaxIdx probs →
        probs.getD j 0 < (make_1x2_prediction features md).confidence)) ∧
    ((market = "over_under" ∨ market = "btts") → probs.length = 2 → probs.sum = 1 →
      ((make_binary_prediction features md market).probabilities.map Prod.snd).sum
          = 1 ∧
      |((make_binary_prediction features md market).probabilities.map
          Prod.snd).sum - 1| ≤ 1 / 1000000 ∧
      List.lookup (make_binary_prediction features md market).predicted_outcome
          (make_binary_prediction features md market).probabilities =
        some (make_binary_prediction features md market).confidence ∧
      (∀ j, j < probs.length →
        probs.getD j 0 ≤ (make_binary_prediction features md market).confidence) ∧
      (∀ j, j < argmaxIdx probs →
        probs.getD j 0 < (make_binary_prediction features md market).confidence)) := by
  constructor
  · intro hlen hsum
    obtain ⟨a, b, c, habc⟩ := List.length_eq_three.1 hlen
    subst habc
    have hspec := argmaxIdx_spec [a, b, c] (by simp)
    have hk3 : argmaxIdx [a, b, c] = 0 ∨ argmaxIdx [a, b, c] = 1 ∨
        argmaxIdx [a, b, c] = 2 := by
      have := hspec.1
      simp at this
      omega
    have hsum' : a + b + c = 1 := by
      simp [List.sum_cons] at hsum
      linarith
    simp only [make_1x2_prediction, ← hp]
    have hmapsum : (([("home_win", [a, b, c].getD 0 0),
        ("draw", [a, b, c].getD 1 0),
        ("away_win", [a, b, c].getD 2 0)] : List (String × ℚ)).map Prod.snd).sum
        = 1 := by
      simp [List.getD]
      linarith
    refine ⟨hmapsum, by rw [hmapsum]; norm_num, ?_, ?_, ?_⟩
    · rcases hk3 with hk | hk | hk <;>
        simp [hk, outcomeMap1x2, List.lookup, List.getD]
    · intro j hj
      exact hspec.2.1 j hj
    · intro j hj
      exact hspec.2.2 j hj
  · intro hmkt hlen hsum
    obtain ⟨a, b, hab⟩ := List.length_eq_two.1 hlen
    subst hab
    have hspec := argmaxIdx_spec [a, b] (by simp)
    have hk2 : argmaxIdx [a, b] = 0 ∨ argmaxIdx [a, b] = 1 := by
      have := hspec.1
      simp at this
      omega
    have hsum' : a + b = 1 := by
      simp [List.sum_cons] at hsum
      linarith
    simp only [make_binary_prediction, ← hp]
    have hmapsum : (([((binaryNames market).1, [a, b].getD 0 0),
        ((binaryNames market).2, [a, b].getD 1 0)] : List (String × ℚ)).map
          Prod.snd).sum = 1 := by
      simp [List.getD]
      linarith
    refine ⟨hmapsum, by rw [hmapsum]; norm_num, ?_, ?_, ?_⟩
    · rcases hmkt with hm | hm <;> subst hm <;>
        rcases hk2 with hk | hk <;>
        simp [hk, binaryNames, List.lookup, List.getD]
    · intro j hj
      exact hspec.2.1 j hj
    · intro j hj
      exact hspec.2.2 j hj

/-- A dummy binary-market artifact for the C6 witness. -/
def dummyModel2 : ModelData :=
  { feature_names := [], predictProba := fun _ => [1, 0], version := "v1" }

/-- Witness for C6: concrete artifacts whose outputs are the
distributions [1, 0, 0] (1x2) and [1, 0] (btts); the confidence equals
the probability mapped to the reported outcome in both cases. -/
theorem C6_probability_semantics_witness :
    (([1, 0, 0] : List ℚ) = dummyModel.predictProba
        (dummyModel.feature_names.map (fdGet [])) ∧
      ([1, 0, 0] : List ℚ).length = 3 ∧ ([1, 0, 0] : List ℚ).sum = 1 ∧
      List.lookup (make_1x2_prediction [] dummyModel).predicted_outcome
          (make_1x2_prediction [] dummyModel).probabilities =
        some (make_1x2_prediction [] dummyModel).confidence) ∧
    (([1, 0] : List ℚ) = dummyModel2.predictProba
        (dummyModel2.feature_names.map (fdGet [])) ∧
      ([1, 0] : List ℚ).length = 2 ∧ ([1, 0] : List ℚ).sum = 1 ∧
      List.lookup (make_binary_prediction [] dummyModel2 "btts").predicted_outcome
          (make_binary_prediction [] dummyModel2 "btts").probabilities =
        some (make_binary_prediction [] dummyModel2 "btts").confidence) :=
  ⟨⟨rfl, rfl, by simp,
     ((C6_probability_semantics [] dummyModel "btts" [1, 0, 0] rfl).1
       rfl (by simp)).2.2.1⟩,
   ⟨rfl, rfl, by simp,
     ((C6_probability_semantics [] dummyModel2 "btts" [1, 0] rfl).2
       (Or.inr rfl) rfl (by simp)).2.2.1⟩⟩

/- ----------------------------------------------------------------
C10: key-set lemmas for the composer groups
---------------------------------------------------------------- -/

/-- All feature names the overall form aggregator can produce for a
window size. -/
def formKeysFull (n : Nat) : List String :=
  [formKey n "points", formKey n "wins", formKey n "draws", formKey n "losses",
   formKey n "goals_scored", formKey n "goals_conceded", formKey n "goal_diff",
   formKey n "clean_sheets", formKey n "failed_to_score",
   formKey n "games_played", formKey n "avg_points",
   formKey n "avg_goals_scored", formKey n "avg_goals_conceded"]

/-- All feature names the venue-restricted form aggregator can produce. -/
def locFormKeysFull (isHome : Bool) (n : Nat) : List String :=
  [locFormKey isHome n "points", locFormKey isHome n "wins",
   locFormKey isHome n "goals_scored", locFormKey isHome n "goals_conceded",
   locFormKey isHome n "games_played", locFormKey isHome n "avg_points",
   locFormKey isHome n "avg_goals_scored"]

/-- All feature names the form feature group can produce. -/
def formNamesAll : List String :=
  (formKeysFull 5).map ("home_" ++ ·) ++ (formKeysFull 5).map ("away_" ++ ·) ++
    locFormKeysFull true 3 ++ locFormKeysFull false 3 ++
    ["form_points_diff", "form_goals_scored_diff", "form_goal_diff_diff"]

/-- All feature names the h2h outcome aggregator can produce. -/
def h2hKeysFull : List String :=
  ["h2h_games_played", "h2h_home_wins", "h2h_away_wins", "h2h_draws",
   "h2h_home_goals_scored", "h2h_away_goals_scored", "h2h_goal_diff",
   "h2h_home_win_pct", "h2h_away_win_pct", "h2h_draw_pct",
   "h2h_avg_total_goals", "h2h_avg_home_goals", "h2h_avg_away_goals",
   "h2h_home_as_home_wins", "h2h_home_as_home_games",
   "h2h_home_as_home_win_pct"]

/-- The fixed key list of the league-position feature group. -/
def posKeys : List String :=
  ["home_position", "away_position", "position_diff",
   "home_points", "away_points", "points_diff",
   "home_ppg", "away_ppg", "ppg_diff",
   "home_season_goals_for", "away_season_goals_for",
   "home_season_goals_against", "away_season_goals_against",
   "home_avg_goals_scored", "away_avg_goals_scored",
   "home_avg_goals_conceded", "away_avg_goals_conceded",
   "home_goal_diff", "away_goal_diff", "goal_diff_diff",
   "home_games_played", "away_games_played",
   "home_win_pct", "away_win_pct"]

/-- Every key the overall form aggregator emits is in `formKeysFull`. -/
lemma form_fst_mem (teamId : Nat) (currentDate : DTime)
    (allFixtures : List Fixture) (nGames : Nat) :
    ∀ p ∈ calculate_team_form_last_n teamId currentDate allFixtures nGames,
      p.1 ∈ formKeysFull nGames := by
  intro p hp
  simp only [calculate_team_form_last_n] at hp
  split at hp
  · simp at hp
    rcases hp with rfl | rfl | rfl | rfl | rfl | rfl | rfl | rfl | rfl | rfl <;>
      simp [formKeysFull]
  · simp at hp
    rcases hp with rfl | rfl | rfl | rfl | rfl | rfl | rfl | rfl | rfl | rfl |
      rfl | rfl | rfl <;> simp [formKeysFull]

/-- Every key the venue-restricted form aggregator emits is in
`locFormKeysFull`. -/
lemma locForm_fst_mem (teamId : Nat) (currentDate : DTime)
    (allFixtures : List Fixture) (isHome : Bool) (nGames : Nat) :
    ∀ p ∈ calculate_home_away_form teamId currentDate allFixtures isHome nGames,
      p.1 ∈ locFormKeysFull isHome nGames := by
  intro p hp
  simp only [calculate_home_away_form] at hp
  split at hp
  · simp at hp
    rcases hp with rfl | rfl | rfl | rfl | rfl <;> simp [locFormKeysFull]
  · simp at hp
    rcases hp with rfl | rfl | rfl | rfl | rfl | rfl | rfl <;>
      simp [locFormKeysFull]

/-- Every key the form feature group emits is in `formNamesAll`. -/
lemma get_form_fst_mem (homeTeamId awayTeamId : Nat) (matchDate : DTime)
    (allFixtures : List Fixture) :
    ∀ p ∈ get_form_features homeTeamId awayTeamId matchDate allFixtures,
      p.1 ∈ formNamesAll := by
  intro p hp
  simp only [get_form_features] at hp
  unfold formNamesAll
  rcases List.mem_append.1 hp with hp | hp
  · rcases List.mem_append.1 hp with hp | hp
    · rcases List.mem_append.1 hp with hp | hp
      · rcases List.mem_append.1 hp with hp | hp
        · obtain ⟨q, hq, rfl⟩ := List.mem_map.1 hp
          have h1 := form_fst_mem homeTeamId matchDate allFixtures 5 q hq
          exact List.mem_append.2 (Or.inl (List.mem_append.2 (Or.inl
            (List.mem_append.2 (Or.inl (List.mem_append.2 (Or.inl
              (List.mem_map_of_mem _ h1))))))))
        · obtain ⟨q, hq, rfl⟩ := List.mem_map.1 hp
          have h1 := form_fst_mem awayTeamId matchDate allFixtures 5 q hq
          exact List.mem_append.2 (Or.inl (List.mem_append.2 (Or.inl
            (List.mem_append.2 (Or.inl (List.mem_append.2 (Or.inr
              (List.mem_map_of_mem _ h1))))))))
      · have h1 := locForm_fst_mem homeTeamId matchDate allFixtures true 3 p hp
        exact List.mem_append.2 (Or.inl (List.mem_append.2 (Or.inl
          (List.mem_append.2 (Or.inr h1)))))
    · have h1 := locForm_fst_mem awayTeamId matchDate allFixtures false 3 p hp
      exact List.mem_append.2 (Or.inl (List.mem_append.2 (Or.inr h1)))
  · refine List.mem_append.2 (Or.inr ?_)
    simp at hp
    rcases hp with rfl | rfl | rfl <;> simp

/-- Every key the h2h outcome aggregator emits is in `h2hKeysFull`. -/
lemma h2h_fst_mem (homeTeamId awayTeamId : Nat) (currentDate : DTime)
    (allFixtures : List Fixture) (nGames : Nat) :
    ∀ p ∈ calculate_h2h_stats homeTeamId awayTeamId currentDate allFixtures nGames,
      p.1 ∈ h2hKeysFull := by
  intro p hp
  simp only [calculate_h2h_stats] at hp
  split at hp
  · simp at hp
    rcases hp with rfl | rfl | rfl | rfl | rfl | rfl | rfl | rfl | rfl | rfl <;>
      simp [h2hKeysFull]
  · simp at hp
    rcases hp with rfl | rfl | rfl | rfl | rfl | rfl | rfl | rfl | rfl | rfl |
      rfl | rfl | rfl | rfl | rfl | rfl <;> simp [h2hKeysFull]

/-- The league-position feature group always has exactly the keys
`posKeys`, in order. -/
lemma pos_keys_eq (homeTeamId awayTeamId : Nat) (season : Int) (matchDate : DTime)
    (allFixtures : List Fixture) :
    (get_league_position_features homeTeamId awayTeamId season matchDate
      allFixtures).map Prod.fst = posKeys := rfl

/-- Lookup in a value-wrapped dictionary is the wrapped lookup. -/
lemma lookup_wrap (d : Feat) (k : String) :
    List.lookup k (d.map (fun p => (p.1, FVal.num p.2))) =
      (List.lookup k d).map FVal.num := by
  induction d with
  | nil => rfl
  | cons p t ih =>
    obtain ⟨a, b⟩ := p
    simp only [List.map_cons, List.lookup]
    cases h : k == a <;> simp [ih]

/-- Lookup misses a value-wrapped dictionary whose keys avoid `k`. -/
lemma lookup_wrap_none (d : Feat) (k : String) (names : List String)
    (hsub : ∀ p ∈ d, p.1 ∈ names) (hk : k ∉ names) :
    List.lookup k (d.map (fun p => (p.1, FVal.num p.2))) = none := by
  rw [lookup_wrap]
  have : List.lookup k d = none := by
    rw [List.lookup_eq_none_iff]
    intro p hp
    have h1 := hsub p hp
    simp only [bne_iff_ne, ne_eq]
    intro he
    exact hk (he ▸ h1)
  rw [this]
  rfl

/-- A dictionary containing key `k` resolves `k`. -/
lemma lookup_isSome_of_mem_keys {d : Feat} {k : String}
    (h : k ∈ d.map Prod.fst) : (List.lookup k d).isSome := by
  rw [List.lookup_isSome_iff]
  obtain ⟨p, hp, he⟩ := List.mem_map.1 h
  exact ⟨p, hp, by simp [he]⟩

/- ----------------------------------------------------------------
C10
---------------------------------------------------------------- -/

/-- C10. At inference time the season is derived from the match date
alone — the calendar year from August onwards, the preceding year before
August — and every league-position feature in the composed vector is the
one computed by the standings aggregator at that derived season: the
request carries no season of its own (`extract_fixture_features` takes
only team ids, date and fixture id). -/
theorem C10_derived_season (homeTeamId awayTeamId : Nat) (matchDate : DTime)
    (fixtureId : Option Nat) (hist : List Fixture) (k : String)
    (hk : k ∈ posKeys) :
    seasonOf matchDate =
      (if 8 ≤ matchDate.month then matchDate.year else matchDate.year - 1) ∧
    fdLookup (extract_fixture_features homeTeamId awayTeamId matchDate fixtureId
        hist) k =
      (featLookup (get_league_position_features homeTeamId awayTeamId
        (seasonOf matchDate) matchDate hist) k).map FVal.num := by
  have hkform : ∀ s ∈ posKeys, s ∉ formNamesAll := by decide
  have hkh2h : ∀ s ∈ posKeys, s ∉ h2hKeysFull := by decide
  refine ⟨rfl, ?_⟩
  unfold fdLookup featLookup extract_fixture_features extract_features_for_fixture
  dsimp only [get_h2h_features]
  simp only [List.map_append, List.append_nil, List.lookup_append]
  have hmeta : List.lookup k
      ([("fixture_id", FVal.num ((fixtureId.getD 0 : Nat) : ℚ)),
        ("season", FVal.num ((seasonOf matchDate : Int) : ℚ)),
        ("match_date", FVal.dat matchDate),
        ("home_team_id", FVal.num ((homeTeamId : Nat) : ℚ)),
        ("away_team_id", FVal.num ((awayTeamId : Nat) : ℚ))] : FDict) = none := by
    have hmetadisj : ∀ s ∈ posKeys, s ∉ (["fixture_id", "season", "match_date",
        "home_team_id", "away_team_id"] : List String) := by decide
    rw [List.lookup_eq_none_iff]
    intro p hp
    simp only [List.mem_cons, List.not_mem_nil, or_false] at hp
    have h5 : p.1 ∈ (["fixture_id", "season", "match_date", "home_team_id",
        "away_team_id"] : List String) := by
      rcases hp with rfl | rfl | rfl | rfl | rfl <;> simp
    have hne : k ≠ p.1 := fun he => (hmetadisj k hk) (he ▸ h5)
    simp [bne_iff_ne, hne]
  have hform : List.lookup k
      ((get_form_features homeTeamId awayTeamId matchDate hist).map
        (fun p => (p.1, FVal.num p.2))) = none :=
    lookup_wrap_none _ k formNamesAll
      (get_form_fst_mem homeTeamId awayTeamId matchDate hist) (hkform k hk)
  have hh2h : List.lookup k
      ((calculate_h2h_stats homeTeamId awayTeamId matchDate hist 5).map
        (fun p => (p.1, FVal.num p.2))) = none :=
    lookup_wrap_none _ k h2hKeysFull
      (h2h_fst_mem homeTeamId awayTeamId matchDate hist 5) (hkh2h k hk)
  have hpos : List.lookup k
      ((get_league_position_features homeTeamId awayTeamId (seasonOf matchDate)
        matchDate hist).map (fun p => (p.1, FVal.num p.2))) =
      (List.lookup k (get_league_position_features homeTeamId awayTeamId
        (seasonOf matchDate) matchDate hist)).map FVal.num :=
    lookup_wrap _ k
  have hsome : ((List.lookup k (get_league_position_features homeTeamId awayTeamId
      (seasonOf matchDate) matchDate hist)).map FVal.num).isSome := by
    have h := lookup_isSome_of_mem_keys
      ((pos_keys_eq homeTeamId awayTeamId (seasonOf matchDate) matchDate hist) ▸ hk)
    cases hc : List.lookup k (get_league_position_features homeTeamId awayTeamId
        (seasonOf matchDate) matchDate hist) with
    | none => rw [hc] at h; simp at h
    | some v => rfl
  rw [hmeta, hform, hh2h, hpos, Option.none_or, Option.none_or, Option.none_or,
    Option.or_of_isSome hsome]

/-- Witness for C10: October 2024 derives season 2024, and the
home-position feature of a concrete request equals the standings
aggregator's value at that derived season. -/
theorem C10_derived_season_witness :
    "home_position" ∈ posKeys ∧
    (seasonOf ⟨2024, 10, 1⟩ =
        (if 8 ≤ (⟨2024, 10, 1⟩ : DTime).month then (⟨2024, 10, 1⟩ : DTime).year
          else (⟨2024, 10, 1⟩ : DTime).year - 1) ∧
      fdLookup (extract_fixture_features 1 2 ⟨2024, 10, 1⟩ none [])
          "home_position" =
        (featLookup (get_league_position_features 1 2 (seasonOf ⟨2024, 10, 1⟩)
          ⟨2024, 10, 1⟩ []) "home_position").map FVal.num) :=
  ⟨by decide, C10_derived_season 1 2 ⟨2024, 10, 1⟩ none [] "home_position"
    (by decide)⟩

/- ----------------------------------------------------------------
C5: standings order lemmas
---------------------------------------------------------------- -/

/-- Strictly greater on the first differing key of the standings sort
key (points, then goal difference, then goals for) — the relation the
claim compares positions against. -/
def rowKeyGT (a b : TableRow) : Prop :=
  b.points < a.points ∨
    (a.points = b.points ∧
      (b.goal_diff < a.goal_diff ∨
        (a.goal_diff = b.goal_diff ∧ b.goals_for < a.goals_for)))

instance : DecidableRel rowKeyGT := fun a b => by
  unfold rowKeyGT; infer_instance

/-- A strict key advantage contradicts the reverse non-strict sort
relation. -/
lemma not_standingsRel_of_rowKeyGT {a b : Nat × TableRow}
    (h : rowKeyGT a.2 b.2) : ¬ standingsRel b a := by
  unfold rowKeyGT at h
  unfold standingsRel
  intro hc
  rcases h with h | ⟨e, h⟩
  · rcases hc with hc | ⟨ec, _⟩ <;> omega
  · rcases h with h | ⟨d, h⟩
    · rcases hc with hc | ⟨ec, hc | ⟨dc, _⟩⟩ <;> omega
    · rcases hc with hc | ⟨ec, hc | ⟨dc, hc⟩⟩ <;> omega

/-- The strict key advantage is irreflexive. -/
lemma rowKeyGT_irrefl (s : TableRow) : ¬ rowKeyGT s s := by
  unfold rowKeyGT
  omega

/-- In-place value update does not change the key list. -/
lemma fst_map_update (rows : List (Nat × TableRow)) (tid : Nat)
    (g : TableRow → TableRow) :
    (rows.map (fun p => if p.1 == tid then (p.1, g p.2) else p)).map Prod.fst =
      rows.map Prod.fst := by
  induction rows with
  | nil => rfl
  | cons a t ih =>
    simp only [List.map_cons, ih]
    congr 1
    split <;> rfl

/-- `upsertRow` preserves the key list up to appending a fresh key. -/
lemma keys_upsertRow (rows : List (Nat × TableRow)) (tid : Nat)
    (g : TableRow → TableRow) :
    (upsertRow rows tid g).map Prod.fst =
      if rows.any (fun p => p.1 == tid) then rows.map Prod.fst
      else rows.map Prod.fst ++ [tid] := by
  unfold upsertRow
  split
  · exact fst_map_update rows tid g
  · simp

/-- `upsertRow` preserves distinctness of keys. -/
lemma nodup_keys_upsertRow (rows : List (Nat × TableRow)) (tid : Nat)
    (g : TableRow → TableRow) (h : (rows.map Prod.fst).Nodup) :
    ((upsertRow rows tid g).map Prod.fst).Nodup := by
  rw [keys_upsertRow]
  split
  · exact h
  · rename_i hany
    have htid : tid ∉ rows.map Prod.fst := by
      intro hmem
      obtain ⟨p, hp, he⟩ := List.mem_map.1 hmem
      exact hany (List.any_eq_true.2 ⟨p, hp, by simp [he]⟩)
    simp [List.nodup_append, h, htid]

/-- Replaying fixtures keeps the accumulated keys distinct. -/
lemma nodup_keys_fold (l : List Fixture) :
    ∀ rows : List (Nat × TableRow), (rows.map Prod.fst).Nodup →
      ((l.foldl applyFixture rows).map Prod.fst).Nodup := by
  induction l with
  | nil => exact fun rows h => h
  | cons f t ih =>
    intro rows h
    exact ih _ (nodup_keys_upsertRow _ _ _ (nodup_keys_upsertRow _ _ _ h))

/-- The entry found at `teamIdx` carries the searched team id. -/
lemma teamIdx_get_fst : ∀ (l : List (Nat × TableRow)) (tid : Nat)
    (h : teamIdx l tid < l.length), (l.get ⟨teamIdx l tid, h⟩).1 = tid := by
  intro l tid
  induction l with
  | nil => intro h; simp [teamIdx] at h
  | cons a t ih =>
    intro h
    by_cases hc : (a.1 == tid) = true
    · simp [teamIdx, List.findIdx_cons, hc]
      exact eq_of_beq hc
    · have hIdx : teamIdx (a :: t) tid = teamIdx t tid + 1 := by
        simp [teamIdx, List.findIdx_cons, hc]
      have h' : teamIdx t tid < t.length := by
        rw [hIdx] at h
        simpa using h
      simp only [hIdx]
      exact ih h'

/-- Core standings-ranking property, over any accumulated row list with
distinct team keys: attaching positions `1 + index in the sorted order`
yields positions that are a permutation of `1..n`, and a team strictly
greater on the first differing sort key receives a smaller position. -/
lemma standings_core (rows : List (Nat × TableRow))
    (hkeys : (rows.map Prod.fst).Nodup) :
    ((rows.map (fun p => (p.1, p.2,
        teamIdx (List.insertionSort standingsRel rows) p.1 + 1))).map
      (fun e => e.2.2)).Perm
        (List.range' 1 (rows.map (fun p => (p.1, p.2,
          teamIdx (List.insertionSort standingsRel rows) p.1 + 1))).length) ∧
    ∀ a ∈ rows.map (fun p => (p.1, p.2,
        teamIdx (List.insertionSort standingsRel rows) p.1 + 1)),
      ∀ b ∈ rows.map (fun p => (p.1, p.2,
        teamIdx (List.insertionSort standingsRel rows) p.1 + 1)),
        rowKeyGT a.2.1 b.2.1 → a.2.2 < b.2.2 := by
  set sorted := List.insertionSort standingsRel rows with hs
  have hperm : sorted.Perm rows := List.perm_insertionSort standingsRel rows
  have hsorted : List.Sorted standingsRel sorted :=
    List.sorted_insertionSort standingsRel rows
  have hrowsnodup : rows.Nodup := List.Nodup.of_map Prod.fst hkeys
  have hlen : sorted.length = rows.length := hperm.length_eq
  have hidx : ∀ p ∈ rows, teamIdx sorted p.1 < sorted.length := fun p hp =>
    List.findIdx_lt_length_of_exists ⟨p, hperm.mem_iff.2 hp, by simp⟩
  have hget : ∀ p, ∀ hp : p ∈ rows,
      sorted.get ⟨teamIdx sorted p.1, hidx p hp⟩ = p := by
    intro p hp
    have h1 : (sorted.get ⟨teamIdx sorted p.1, hidx p hp⟩).1 = p.1 :=
      teamIdx_get_fst sorted p.1 (hidx p hp)
    have hmem : sorted.get ⟨teamIdx sorted p.1, hidx p hp⟩ ∈ rows :=
      hperm.mem_iff.1 (List.get_mem _ _ _)
    exact List.inj_on_of_nodup_map hkeys hmem hp h1
  have hinj : ∀ p ∈ rows, ∀ q ∈ rows,
      teamIdx sorted p.1 + 1 = teamIdx sorted q.1 + 1 → p = q := by
    intro p hp q hq he
    have he' : teamIdx sorted p.1 = teamIdx sorted q.1 := by omega
    have h1 := hget p hp
    have h2 := hget q hq
    rw [← h1, ← h2]
    congr 1
    exact Fin.ext he'
  constructor
  · have hpos_eq : (rows.map (fun p => (p.1, p.2, teamIdx sorted p.1 + 1))).map
        (fun e => e.2.2) = rows.map (fun p => teamIdx sorted p.1 + 1) := by
      simp [List.map_map, Function.comp]
    have hnodup : (rows.map (fun p => teamIdx sorted p.1 + 1)).Nodup :=
      hrowsnodup.map_on hinj
    have hsub : rows.map (fun p => teamIdx sorted p.1 + 1) ⊆
        List.range' 1 rows.length := by
      intro x hx
      obtain ⟨p, hp, rfl⟩ := List.mem_map.1 hx
      have h1 := hidx p hp
      rw [List.mem_range']
      exact ⟨teamIdx sorted p.1, by omega, by omega⟩
    have hlen2 : (rows.map (fun p => teamIdx sorted p.1 + 1)).length =
        (List.range' 1 rows.length).length := by simp
    rw [hpos_eq, List.length_map]
    exact (List.subperm_of_subset hnodup hsub).perm_of_length_le
      (le_of_eq hlen2.symm)
  · intro a ha b hb hgt
    obtain ⟨p, hp, rfl⟩ := List.mem_map.1 ha
    obtain ⟨q, hq, rfl⟩ := List.mem_map.1 hb
    dsimp only at hgt ⊢
    by_contra hle
    push_neg at hle
    have hlee : teamIdx sorted q.1 ≤ teamIdx sorted p.1 := by omega
    rcases lt_or_eq_of_le hlee with hlt | heq
    · have hrel := List.pairwise_iff_get.1 hsorted
        ⟨teamIdx sorted q.1, hidx q hq⟩ ⟨teamIdx sorted p.1, hidx p hp⟩ hlt
      rw [hget q hq, hget p hp] at hrel
      exact not_standingsRel_of_rowKeyGT hgt hrel
    · have heq2 : p = q := hinj p hp q hq (by omega)
      subst heq2
      exact rowKeyGT_irrefl p.2 hgt

/-- C5. Every standings table assigns positions that are distinct
consecutive integers starting at 1 (a permutation of 1..n), and any team
strictly greater on the first differing key of (points desc, goal
difference desc, goals for desc) receives a strictly smaller (better)
position. -/
theorem C5_standings_rank (season : Int) (cutoff : DTime) (hist : List Fixture) :
    ((calculate_league_table season cutoff hist).map (fun e => e.2.2)).Perm
      (List.range' 1 (calculate_league_table season cutoff hist).length) ∧
    ∀ a ∈ calculate_league_table season cutoff hist,
      ∀ b ∈ calculate_league_table season cutoff hist,
        rowKeyGT a.2.1 b.2.1 → a.2.2 < b.2.2 :=
  standings_core ((standingsFilter season cutoff hist).foldl applyFixture [])
    (nodup_keys_fold _ [] (by simp))

/-- One-fixture history for the standings witness: team 1 beats team 2
2-0. -/
def c5hist : List Fixture := [⟨1, 2023, ⟨2024, 1, 1⟩, 1, 2, some 2, some 0, "FT"⟩]

/-- Expected accumulated row of team 1 in the witness table. -/
def c5rowA : TableRow := ⟨1, 1, 0, 0, 2, 0, 2, 3⟩

/-- Expected accumulated row of team 2 in the witness table. -/
def c5rowB : TableRow := ⟨1, 0, 0, 1, 0, 2, -2, 0⟩

/-- Witness for C5: in the concrete two-team table the winner (greater
on points) receives position 1, the loser position 2, and the positions
form a permutation of 1..2. -/
theorem C5_standings_rank_witness :
    ((1, c5rowA, 1) ∈ calculate_league_table 2023 exCut c5hist ∧
      (2, c5rowB, 2) ∈ calculate_league_table 2023 exCut c5hist ∧
      rowKeyGT c5rowA c5rowB) ∧
    ((calculate_league_table 2023 exCut c5hist).map (fun e => e.2.2)).Perm
      (List.range' 1 (calculate_league_table 2023 exCut c5hist).length) ∧
    (1 : Nat) < 2 :=
  ⟨⟨by decide, by decide, by decide⟩,
    (C5_standings_rank 2023 exCut c5hist).1,
    (C5_standings_rank 2023 exCut c5hist).2 (1, c5rowA, 1) (by decide)
      (2, c5rowB, 2) (by decide) (by decide)⟩

/- ----------------------------------------------------------------
C3: guaranteed key sets
---------------------------------------------------------------- -/

/-- The form-aggregator keys present in both branches (the zero-history
branch omits the three average keys). -/
def shortFormKeys (n : Nat) : List String :=
  [formKey n "points", formKey n "wins", formKey n "draws", formKey n "losses",
   formKey n "goals_scored", formKey n "goals_conceded", formKey n "goal_diff",
   formKey n "clean_sheets", formKey n "failed_to_score", formKey n "games_played"]

/-- The venue-form keys present in both branches (the zero-history
branch omits the two average keys). -/
def shortLocFormKeys (isHome : Bool) (n : Nat) : List String :=
  [locFormKey isHome n "points", locFormKey isHome n "wins",
   locFormKey isHome n "goals_scored", locFormKey isHome n "goals_conceded",
   locFormKey isHome n "games_played"]

/-- The h2h-aggregator keys present in both branches (the zero-history
branch omits six of the sixteen keys). -/
def h2hShortKeys : List String :=
  ["h2h_games_played", "h2h_home_wins", "h2h_away_wins", "h2h_draws",
   "h2h_home_goals_scored", "h2h_away_goals_scored", "h2h_home_win_pct",
   "h2h_avg_total_goals", "h2h_home_as_home_wins", "h2h_home_as_home_games"]

/-- The goal-metric keys present in both branches (the zero-history
branch carries two extra first-half keys on top of these). -/
def goalMetricKeys : List String :=
  ["goals_scored_avg", "goals_conceded_avg", "total_goals_avg",
   "over_2_5_pct", "over_1_5_pct", "over_3_5_pct", "btts_pct",
   "clean_sheet_pct", "failed_to_score_pct", "games_analyzed"]

/-- The venue-goal-metric keys, identical in both branches. -/
def locGoalKeys (isHome : Bool) : List String :=
  [(if isHome then "home" else "away") ++ "_goals_scored_avg",
   (if isHome then "home" else "away") ++ "_goals_conceded_avg",
   (if isHome then "home" else "away") ++ "_total_goals_avg",
   (if isHome then "home" else "away") ++ "_over_2_5_pct",
   (if isHome then "home" else "away") ++ "_btts_pct",
   (if isHome then "home" else "away") ++ "_clean_sheet_pct",
   (if isHome then "home" else "away") ++ "_failed_to_score_pct"]

/-- The h2h-goal-metric keys, identical in both branches. -/
def h2hGoalKeys : List String :=
  ["h2h_total_goals_avg", "h2h_over_2_5_pct", "h2h_btts_pct",
   "h2h_home_team_goals_avg", "h2h_away_team_goals_avg"]

/-- The combined goal-feature keys, always appended. -/
def combinedGoalKeys : List String :=
  ["combined_goals_avg", "combined_conceded_avg", "combined_total_goals_avg",
   "expected_total_goals", "both_over_2_5_pct", "both_btts_pct",
   "btts_potential"]

/-- Keys the form feature group is guaranteed to produce on every
history. -/
def formGuaranteed : List String :=
  (shortFormKeys 5).map ("home_" ++ ·) ++ (shortFormKeys 5).map ("away_" ++ ·) ++
    shortLocFormKeys true 3 ++ shortLocFormKeys false 3 ++
    ["form_points_diff", "form_goals_scored_diff", "form_goal_diff_diff"]

/-- Keys the goal feature group is guaranteed to produce on every
history. -/
def goalGuaranteed : List String :=
  goalMetricKeys.map ("home_" ++ ·) ++ goalMetricKeys.map ("away_" ++ ·) ++
    (locGoalKeys true).map ("home_" ++ ·) ++ (locGoalKeys false).map ("away_" ++ ·) ++
    h2hGoalKeys ++ combinedGoalKeys

/-- Keys the feature composer is guaranteed to produce on every history
and every fixture. -/
def guaranteedKeys : List String :=
  formGuaranteed ++ h2hShortKeys ++ posKeys ++ goalGuaranteed

/-- The declared feature names that the composer omits when the relevant
aggregator has zero eligible history: the form and h2h average and
percentage keys absent from the zero branches. -/
def omittableNames : List String :=
  ["home_form_last_5_avg_points", "home_form_last_5_avg_goals_scored",
   "home_form_last_5_avg_goals_conceded",
   "away_form_last_5_avg_points", "away_form_last_5_avg_goals_scored",
   "away_form_last_5_avg_goals_conceded",
   "home_form_last_3_avg_points", "home_form_last_3_avg_goals_scored",
   "away_form_last_3_avg_points", "away_form_last_3_avg_goals_scored",
   "h2h_goal_diff", "h2h_away_win_pct", "h2h_draw_pct",
   "h2h_avg_home_goals", "h2h_avg_away_goals", "h2h_home_as_home_win_pct"]

/-- Wrapping values into `FVal` leaves the key list unchanged. -/
lemma keys_wrap (d : Feat) :
    (d.map (fun p => (p.1, FVal.num p.2))).map Prod.fst = d.map Prod.fst := by
  induction d with
  | nil => rfl
  | cons a t ih => simp [ih]

/-- Name-prefixing maps the key list through the same prefixing. -/
lemma keys_pre (pre : String) (d : Feat) :
    (d.map (fun p => (pre ++ p.1, p.2))).map Prod.fst =
      (d.map Prod.fst).map (fun s => pre ++ s) := by
  induction d with
  | nil => rfl
  | cons a t ih => simp [ih]

/-- The guaranteed form keys appear in every form-aggregator output. -/
lemma mem_keys_form (teamId : Nat) (currentDate : DTime)
    (allFixtures : List Fixture) (nGames : Nat) :
    ∀ s ∈ shortFormKeys nGames,
      s ∈ (calculate_team_form_last_n teamId currentDate allFixtures
        nGames).map Prod.fst := by
  intro s hs
  simp only [calculate_team_form_last_n]
  split <;> (simp [shortFormKeys] at hs ⊢; tauto)

/-- The guaranteed venue-form keys appear in every output. -/
lemma mem_keys_locForm (teamId : Nat) (currentDate : DTime)
    (allFixtures : List Fixture) (isHome : Bool) (nGames : Nat) :
    ∀ s ∈ shortLocFormKeys isHome nGames,
      s ∈ (calculate_home_away_form teamId currentDate allFixtures isHome
        nGames).map Prod.fst := by
  intro s hs
  simp only [calculate_home_away_form]
  split <;> (simp [shortLocFormKeys] at hs ⊢; tauto)

/-- The guaranteed h2h keys appear in every h2h-aggregator output. -/
lemma mem_keys_h2h (homeTeamId awayTeamId : Nat) (currentDate : DTime)
    (allFixtures : List Fixture) (nGames : Nat) :
    ∀ s ∈ h2hShortKeys,
      s ∈ (calculate_h2h_stats homeTeamId awayTeamId currentDate allFixtures
        nGames).map Prod.fst := by
  intro s hs
  simp only [calculate_h2h_stats]
  split <;> (simp [h2hShortKeys] at hs ⊢; tauto)

/-- The guaranteed goal-metric keys appear in every output. -/
lemma mem_keys_goal (teamId : Nat) (currentDate : DTime)
    (allFixtures : List Fixture) (nGames : Nat) :
    ∀ s ∈ goalMetricKeys,
      s ∈ (calculate_goal_metrics teamId currentDate allFixtures nGames).map
        Prod.fst := by
  intro s hs
  simp only [calculate_goal_metrics]
  split <;> (simp [goalMetricKeys] at hs ⊢; tauto)

/-- The venue-goal-metric keys appear in every output. -/
lemma mem_keys_locGoal (teamId : Nat) (currentDate : DTime)
    (allFixtures : List Fixture) (isHome : Bool) (nGames : Nat) :
    ∀ s ∈ locGoalKeys isHome,
      s ∈ (calculate_home_away_goal_metrics teamId currentDate allFixtures
        isHome nGames).map Prod.fst := by
  intro s hs
  simp only [calculate_home_away_goal_metrics]
  split <;> (simp [locGoalKeys] at hs ⊢; tauto)

/-- The h2h-goal-metric keys appear in every output. -/
lemma mem_keys_h2hGoal (homeTeamId awayTeamId : Nat) (currentDate : DTime)
    (allFixtures : List Fixture) (nGames : Nat) :
    ∀ s ∈ h2hGoalKeys,
      s ∈ (calculate_h2h_goal_metrics homeTeamId awayTeamId currentDate
        allFixtures nGames).map Prod.fst := by
  intro s hs
  simp only [calculate_h2h_goal_metrics]
  split <;> (simp [h2hGoalKeys] at hs ⊢; tauto)

/-- The form feature group always contains its guaranteed keys. -/
lemma form_group_lower (homeTeamId awayTeamId : Nat) (matchDate : DTime)
    (allFixtures : List Fixture) :
    ∀ s ∈ formGuaranteed,
      s ∈ (get_form_features homeTeamId awayTeamId matchDate allFixtures).map
        Prod.fst := by
  intro s hs
  unfold formGuaranteed at hs
  unfold get_form_features
  simp only [List.map_append, List.mem_append, keys_pre]
  rcases List.mem_append.1 hs with hs | hs
  · rcases List.mem_append.1 hs with hs | hs
    · rcases List.mem_append.1 hs with hs | hs
      · rcases List.mem_append.1 hs with hs | hs
        · obtain ⟨u, hu, rfl⟩ := List.mem_map.1 hs
          exact Or.inl (Or.inl (Or.inl (Or.inl (List.mem_map_of_mem _
            (mem_keys_form homeTeamId matchDate allFixtures 5 u hu)))))
        · obtain ⟨u, hu, rfl⟩ := List.mem_map.1 hs
          exact Or.inl (Or.inl (Or.inl (Or.inr (List.mem_map_of_mem _
            (mem_keys_form awayTeamId matchDate allFixtures 5 u hu)))))
      · exact Or.inl (Or.inl (Or.inr
          (mem_keys_locForm homeTeamId matchDate allFixtures true 3 s hs)))
    · exact Or.inl (Or.inr
        (mem_keys_locForm awayTeamId matchDate allFixtures false 3 s hs))
  · refine Or.inr ?_
    simp at hs ⊢
    tauto

/-- The goal feature group always contains its guaranteed keys. -/
lemma goal_group_lower (homeTeamId awayTeamId : Nat) (matchDate : DTime)
    (allFixtures : List Fixture) :
    ∀ s ∈ goalGuaranteed,
      s ∈ (get_goal_features homeTeamId awayTeamId matchDate allFixtures).map
        Prod.fst := by
  intro s hs
  unfold goalGuaranteed at hs
  unfold get_goal_features
  simp only [List.map_append, List.mem_append, keys_pre]
  rcases List.mem_append.1 hs with hs | hs
  · rcases List.mem_append.1 hs with hs | hs
    · rcases List.mem_append.1 hs with hs | hs
      · rcases List.mem_append.1 hs with hs | hs
        · rcases List.mem_append.1 hs with hs | hs
          · obtain ⟨u, hu, rfl⟩ := List.mem_map.1 hs
            exact Or.inl (Or.inl (Or.inl (Or.inl (Or.inl
              (List.mem_map_of_mem _
                (mem_keys_goal homeTeamId matchDate allFixtures 10 u hu))))))
          · obtain ⟨u, hu, rfl⟩ := List.mem_map.1 hs
            exact Or.inl (Or.inl (Or.inl (Or.inl (Or.inr
              (List.mem_map_of_mem _
                (mem_keys_goal awayTeamId matchDate allFixtures 10 u hu))))))
        · obtain ⟨u, hu, rfl⟩ := List.mem_map.1 hs
          exact Or.inl (Or.inl (Or.inl (Or.inr (List.mem_map_of_mem _
            (mem_keys_locGoal homeTeamId matchDate allFixtures true 5 u hu)))))
      · obtain ⟨u, hu, rfl⟩ := List.mem_map.1 hs
        exact Or.inl (Or.inl (Or.inr (List.mem_map_of_mem _
          (mem_keys_locGoal awayTeamId matchDate allFixtures false 5 u hu))))
    · exact Or.inl (Or.inr
        (mem_keys_h2hGoal homeTeamId awayTeamId matchDate allFixtures 5 s hs))
  · refine Or.inr ?_
    simp [combinedGoalKeys] at hs ⊢
    tauto

/-- The composer output always contains every guaranteed key. -/
lemma composer_keys_lower (fixture : Fixture) (hist : List Fixture) :
    ∀ name ∈ guaranteedKeys,
      name ∈ (extract_features_for_fixture fixture hist).map Prod.fst := by
  intro name hn
  unfold guaranteedKeys at hn
  unfold extract_features_for_fixture
  dsimp only [get_h2h_features]
  simp only [List.map_append, List.mem_append, keys_wrap]
  rcases List.mem_append.1 hn with hn | hn
  · rcases List.mem_append.1 hn with hn | hn
    · rcases List.mem_append.1 hn with hn | hn
      · exact Or.inl (Or.inr (Or.inl (Or.inl (Or.inl
          (form_group_lower fixture.homeTeamId fixture.awayTeamId
            fixture.matchDate hist name hn)))))
      · exact Or.inl (Or.inr (Or.inl (Or.inl (Or.inr
          (mem_keys_h2h fixture.homeTeamId fixture.awayTeamId fixture.matchDate
            hist 5 name hn)))))
    · refine Or.inl (Or.inr (Or.inl (Or.inr ?_)))
      rw [pos_keys_eq]
      exact hn
  · exact Or.inl (Or.inr (Or.inr
      (goal_group_lower fixture.homeTeamId fixture.awayTeamId fixture.matchDate
        hist name hn)))

/-- The inference-time fixture used by the C3 concrete evaluations:
scores null, status "NS". -/
def c3fx : Fixture := ⟨0, 2023, ⟨2024, 2, 1⟩, 1, 2, none, none, "NS"⟩

/-- The guaranteed keys whose zero-history value is the literal 0 (the
form/h2h/goal counts and the goal-pattern fractions; excludes the
standings defaults and the derived differential/combined features). -/
def zeroDefaultNames : List String :=
  (shortFormKeys 5).map ("home_" ++ ·) ++ (shortFormKeys 5).map ("away_" ++ ·) ++
    shortLocFormKeys true 3 ++ shortLocFormKeys false 3 ++ h2hShortKeys ++
    goalMetricKeys.map ("home_" ++ ·) ++ goalMetricKeys.map ("away_" ++ ·) ++
    (locGoalKeys true).map ("home_" ++ ·) ++
    (locGoalKeys false).map ("away_" ++ ·) ++ h2hGoalKeys

set_option maxRecDepth 8000 in
/-- Counterexample to C3 as stated: `home_form_last_5_avg_points` is
declared for the 1x2 market, yet on a history with zero eligible
fixtures the composer omits it from the produced vector (the zero-fill
to 0.0 happens only later, when the prediction service assembles the
model input). -/
theorem C3_counterexample :
    "home_form_last_5_avg_points" ∈ get_feature_columns "1x2" ∧
    "home_form_last_5_avg_points" ∉
      (extract_features_for_fixture c3fx []).map Prod.fst :=
  ⟨by decide, by decide⟩

set_option maxRecDepth 8000 in
/-- C3 (amended). For every requested market and every history the
composer's vector contains every declared feature name except the
sixteen form/h2h average and percentage names, which the zero-history
branches omit (they are zero-filled downstream by the prediction
service); those sixteen are themselves declared names; and with zero
eligible history every guaranteed count/fraction feature is exactly 0,
while the standings default gives position 10. -/
theorem C3_composer_key_coverage :
    (∀ market ∈ (["1x2", "over_under", "btts"] : List String),
      ∀ (fixture : Fixture) (hist : List Fixture),
      ∀ name ∈ get_feature_columns market, name ∉ omittableNames →
        name ∈ (extract_features_for_fixture fixture hist).map Prod.fst) ∧
    (∀ name ∈ omittableNames, name ∈ get_feature_columns "1x2") ∧
    (∀ name ∈ zeroDefaultNames,
      fdLookup (extract_features_for_fixture c3fx []) name = some (.num 0)) ∧
    fdLookup (extract_features_for_fixture c3fx []) "home_position" =
      some (.num 10) := by
  refine ⟨?_, by decide, by decide, by decide⟩
  intro market hmkt fixture hist name hname hnotom
  have hkey : ∀ x ∈ base_features ++ goal_feature_columns,
      x ∉ omittableNames → x ∈ guaranteedKeys := by decide
  have hdecl : name ∈ base_features ++ goal_feature_columns := by
    simp only [List.mem_cons, List.not_mem_nil, or_false] at hmkt
    rcases hmkt with rfl | rfl | rfl
    · have he : get_feature_columns "1x2" = base_features := rfl
      rw [he] at hname
      exact List.mem_append_left _ hname
    · have he : get_feature_columns "over_under" =
          base_features ++ goal_feature_columns := rfl
      rw [he] at hname
      exact hname
    · have he : get_feature_columns "btts" =
          base_features ++ goal_feature_columns := rfl
      rw [he] at hname
      exact hname
  exact composer_keys_lower fixture hist name (hkey name hdecl hnotom)

/-- Witness for C3 (amended): a non-omittable declared 1x2 feature name
is present in the composer output even on an empty history. -/
theorem C3_composer_key_coverage_witness :
    ("1x2" ∈ (["1x2", "over_under", "btts"] : List String) ∧
      "home_form_last_5_points" ∈ get_feature_columns "1x2" ∧
      "home_form_last_5_points" ∉ omittableNames) ∧
    "home_form_last_5_points" ∈
      (extract_features_for_fixture c3fx []).map Prod.fst :=
  ⟨⟨by decide, by decide, by decide⟩,
    C3_composer_key_coverage.1 "1x2" (by decide) c3fx []
      "home_form_last_5_points" (by decide) (by decide)⟩
